import Mathlib

/-!
Early printk for Microblaze, `arch/microblaze/kernel/early_printk.c`.

A shallow embedding of the early console: the two polling UART backends
(uartlite and uart16550), the formatting dispatcher `early_printk`, and the
`setup_early_printk` / `disable_early_printk` state machine.

The file-scope statics of the C file are the first three fields of `World`.
Everything the code does to the outside (register reads and writes, calls to
collaborators that live outside the file) is appended to `World.trace`, and
every function of the file logs its own entry, so that "what was called, in
which order" can be read off the trace.
-/

namespace EarlyPrintk

/-- The two `struct console` objects of the file; `early_console` points to one
of them or is `NULL` (`none`). -/
inductive Console where
  | early_serial_uartlite_console
  | early_serial_uart16550_console
  deriving DecidableEq, Repr

/-- Observable events, in program order. -/
inductive Event where
  /-- A read `in_be32(addr)` that returned `val`. -/
  | in_be32 (addr val : Nat)
  /-- A write `out_be32(addr, val)`. -/
  | out_be32 (addr val : Nat)
  /-- Entry of `early_printk_uartlite_putc(c)`. -/
  | uartlite_putc (c : Int)
  /-- Entry of `early_printk_uart16550_putc(c)`. -/
  | uart16550_putc (c : Int)
  /-- Entry of `early_printk_uartlite_write(_, s, n)`. -/
  | uartlite_write (n : Nat)
  /-- Entry of `early_printk_uart16550_write(_, s, n)`. -/
  | uart16550_write (n : Nat)
  /-- Call of the platform probe `early_uartlite_console()`. -/
  | early_uartlite_console
  /-- Call of the platform probe `early_uart16550_console()`. -/
  | early_uart16550_console
  /-- Call of `early_console_reg_tlb_alloc(addr)`. -/
  | early_console_reg_tlb_alloc (addr : Nat)
  /-- Call of `vscnprintf(buf, size, fmt, ap)`. -/
  | vscnprintf (size : Nat) (fmt : String) (args : List Nat)
  /-- Call of `printk(KERN_WARNING msg)`. -/
  | printk_warning (msg : String)
  /-- Call of `unregister_console(con)`. -/
  | unregister_console (con : Console)
  /-- Call of `register_console(con)`; the file has it only inside comments. -/
  | register_console (con : Console)
  /-- Call through `early_console->write` while `early_console` is `NULL`. -/
  | null_console_call
  deriving DecidableEq, Repr

/-- Build configuration: the three preprocessor symbols the file tests. -/
structure Config where
  SERIAL_UARTLITE_CONSOLE : Bool
  SERIAL_8250_CONSOLE : Bool
  MMU : Bool
  deriving DecidableEq, Repr

/-- The collaborators outside the file.  `in_be32 k addr` is what the hardware
answers to the `k`-th register read of the boot when it is a read of `addr`;
the two probes give the value they return; `vscnprintf size fmt args` gives the
contents left in the buffer (indexed from its start) and the returned count. -/
structure Env where
  in_be32 : Nat → Nat → Nat
  early_uartlite_console : Nat
  early_uart16550_console : Nat
  vscnprintf : Nat → String → List Nat → (Nat → Int) × Int

/-- The statics of the file (`early_console_initialized`, `base_addr`,
`early_console`), the number of register reads made so far, and the trace. -/
structure World where
  early_console_initialized : Nat
  base_addr : Nat
  early_console : Option Console
  reads : Nat
  trace : List Event
  deriving DecidableEq, Repr

/-- Zero-initialised statics, nothing done yet. -/
def World.boot : World :=
  { early_console_initialized := 0, base_addr := 0, early_console := none,
    reads := 0, trace := [] }

/-- Width of `u32` and `unsigned`. -/
def U32 : Nat := 2 ^ 32

/-- Append one event to the trace. -/
def World.log (w : World) (e : Event) : World :=
  { w with trace := w.trace ++ [e] }

/-- Register read `in_be32(addr)`: the value read and the world after. -/
def in_be32 (env : Env) (addr : Nat) (w : World) : Nat × World :=
  let v := env.in_be32 w.reads addr % U32
  (v, { w with reads := w.reads + 1, trace := w.trace ++ [Event.in_be32 addr v] })

/-- Register write `out_be32(addr, val)`. -/
def out_be32 (addr val : Nat) (w : World) : World :=
  w.log (Event.out_be32 addr val)

/-- The expression `c & 0xff` for a `char` promoted to `int`: the low eight bits. -/
def low8 (c : Int) : Nat := (c % 256).toNat

/-- The loop `while (--retries && (in_be32(base_addr + 8) & (1 << 3)));` of
`early_printk_uartlite_putc`.  The argument is the value of `retries` before
the pre-decrement, the result its value when the loop is left.  The counter
starts at 10000, so the wrap of `--retries` at 0 is never taken. -/
def uartlite_spin (env : Env) : Nat → World → Nat × World
  | 0, w => (0, w)
  | r + 1, w =>
    if r = 0 then (0, w)
    else
      let (v, w1) := in_be32 env ((w.base_addr + 8) % U32) w
      if v &&& (1 <<< 3) ≠ 0 then uartlite_spin env r w1 else (r, w1)

/-- Function `early_printk_uartlite_putc(c)`. -/
def early_printk_uartlite_putc (env : Env) (c : Int) (w : World) : World :=
  let w0 := w.log (Event.uartlite_putc c)
  let (retries, w1) := uartlite_spin env 10000 w0
  if retries ≠ 0 then out_be32 ((w1.base_addr + 4) % U32) (low8 c) w1 else w1

/-- The mask `UART_LSR_TEMT | UART_LSR_THRE`. -/
def BOTH_EMPTY : Nat := 0x40 ||| 0x20

/-- The loop `while (--retries && !((in_be32(base_addr + 0x14) & BOTH_EMPTY)
== BOTH_EMPTY));` of `early_printk_uart16550_putc`, as `uartlite_spin`. -/
def uart16550_spin (env : Env) : Nat → World → Nat × World
  | 0, w => (0, w)
  | r + 1, w =>
    if r = 0 then (0, w)
    else
      let (v, w1) := in_be32 env ((w.base_addr + 0x14) % U32) w
      if ¬ (v &&& BOTH_EMPTY = BOTH_EMPTY) then uart16550_spin env r w1 else (r, w1)

/-- Function `early_printk_uart16550_putc(c)`. -/
def early_printk_uart16550_putc (env : Env) (c : Int) (w : World) : World :=
  let w0 := w.log (Event.uart16550_putc c)
  let (retries, w1) := uart16550_spin env 10000 w0
  if retries ≠ 0 then out_be32 w1.base_addr (low8 c) w1 else w1

/-- The loop `while (*s && n-- > 0) { putc(*s); if (*s == '\n') putc('\r');
s++; }` shared by both `write` functions; `s` is the memory from the pointer
on, `i` the number of `s++` done so far, `n` the remaining count. -/
def write_loop (putc : Int → World → World) (s : Nat → Int) : Nat → Nat → World → World
  | _, 0, w => w
  | i, n + 1, w =>
    if s i = 0 then w
    else
      let w1 := putc (s i) w
      let w2 := if s i = 10 then putc 13 w1 else w1
      write_loop putc s (i + 1) n w2

/-- Function `early_printk_uartlite_write(unused, s, n)`. -/
def early_printk_uartlite_write (env : Env) (s : Nat → Int) (n : Nat) (w : World) : World :=
  write_loop (early_printk_uartlite_putc env) s 0 n (w.log (Event.uartlite_write n))

/-- Function `early_printk_uart16550_write(unused, s, n)`. -/
def early_printk_uart16550_write (env : Env) (s : Nat → Int) (n : Nat) (w : World) : World :=
  write_loop (early_printk_uart16550_putc env) s 0 n (w.log (Event.uart16550_write n))

/-- The `.write` member of each console. -/
def Console.write : Console → Env → (Nat → Int) → Nat → World → World
  | Console.early_serial_uartlite_console => early_printk_uartlite_write
  | Console.early_serial_uart16550_console => early_printk_uart16550_write

/-- Function `early_printk(fmt, ...)`.  The `int` returned by `vscnprintf` is converted
to the `unsigned` parameter of `write`. -/
def early_printk (env : Env) (fmt : String) (args : List Nat) (w : World) : World :=
  if w.early_console_initialized ≠ 0 then
    let (buf, n) := env.vscnprintf 512 fmt args
    let w1 := w.log (Event.vscnprintf 512 fmt args)
    match w1.early_console with
    | some con => con.write env buf (n % (U32 : Int)).toNat w1
    | none => w1.log Event.null_console_call
  else w

/-- The part of `setup_early_printk` under `CONFIG_SERIAL_8250_CONSOLE`, and
the final `return 1`. -/
def setup_uart16550 (cfg : Config) (env : Env) (w : World) : Int × World :=
  if cfg.SERIAL_8250_CONSOLE then
    let w1 := { w.log Event.early_uart16550_console with
                base_addr := env.early_uart16550_console % U32 }
    let w2 := { w1 with base_addr := w1.base_addr &&& 0xFFFFFFFC }
    if w2.base_addr ≠ 0 then
      let w3 := { w2 with early_console_initialized := 1 }
      let w4 := if cfg.MMU then w3.log (Event.early_console_reg_tlb_alloc w3.base_addr) else w3
      let w5 := { w4 with early_console := some Console.early_serial_uart16550_console }
      let w6 := early_printk env "early_printk_console is enabled at 0x%08x\n" [w5.base_addr] w5
      (0, w6)
    else (1, w2)
  else (1, w)

/-- Function `setup_early_printk(opt)`; `opt` is not used by the code. -/
def setup_early_printk (cfg : Config) (env : Env) (_opt : Option String) (w : World) :
    Int × World :=
  if w.early_console_initialized ≠ 0 then (1, w)
  else if cfg.SERIAL_UARTLITE_CONSOLE then
    let w1 := { w.log Event.early_uartlite_console with
                base_addr := env.early_uartlite_console % U32 }
    if w1.base_addr ≠ 0 then
      let w2 := { w1 with early_console_initialized := 1 }
      let w3 := if cfg.MMU then w2.log (Event.early_console_reg_tlb_alloc w2.base_addr) else w2
      let w4 := { w3 with early_console := some Console.early_serial_uartlite_console }
      let w5 := early_printk env "early_printk_console is enabled at 0x%08x\n" [w4.base_addr] w4
      (0, w5)
    else setup_uart16550 cfg env w1
  else setup_uart16550 cfg env w

/-- Function `disable_early_printk()`. -/
def disable_early_printk (w : World) : World :=
  if w.early_console_initialized = 0 ∨ w.early_console = none then w
  else
    let w1 := w.log (Event.printk_warning "disabling early console\n")
    let w2 := match w1.early_console with
      | some con => w1.log (Event.unregister_console con)
      | none => w1
    { w2 with early_console_initialized := 0 }

/-! Vocabulary of the statements. -/

/-- The arguments of the `putc` calls logged in a trace, in order. -/
def putcCalls (t : List Event) : List Int :=
  t.filterMap fun e =>
    match e with
    | Event.uartlite_putc c => some c
    | Event.uart16550_putc c => some c
    | _ => none

/-- The bytes `s[i], ..., s[i+n-1]`. -/
def bytes (s : Nat → Int) : Nat → Nat → List Int
  | _, 0 => []
  | i, n + 1 => s i :: bytes s (i + 1) n

/-- Each byte once, in order, with one carriage return (13) right after each
newline (10) and after no other byte. -/
def crlf : List Int → List Int
  | [] => []
  | c :: t => if c = 10 then 10 :: 13 :: crlf t else c :: crlf t

/-- Events that are register reads. -/
def Event.isRead : Event → Bool
  | Event.in_be32 _ _ => true
  | _ => false

/-- Events that are register writes. -/
def Event.isWrite : Event → Bool
  | Event.out_be32 _ _ => true
  | _ => false

/-- Events a `putc` may produce: its own entry, reads and writes. -/
def Event.isPutc : Event → Bool
  | Event.in_be32 _ _ => true
  | Event.out_be32 _ _ => true
  | Event.uartlite_putc _ => true
  | Event.uart16550_putc _ => true
  | _ => false

/-- Events a backend `write` may produce: its own entry and those of `putc`. -/
def Event.isBackend : Event → Bool
  | Event.uartlite_write _ => true
  | Event.uart16550_write _ => true
  | e => e.isPutc

/-- Events `early_printk` may produce: the formatter call, the backend's
events, and the call through a null `early_console`. -/
def Event.isPrintk : Event → Bool
  | Event.vscnprintf _ _ _ => true
  | Event.null_console_call => true
  | e => e.isBackend

/-- Relation `Steps P w1 w2`: the statics are the same in both worlds, the
trace of `w2` is that of `w1` followed by events that all satisfy `P`, and the
read counter advanced by the number of reads among them. -/
def Steps (P : Event → Bool) (w1 w2 : World) : Prop :=
  w2.early_console_initialized = w1.early_console_initialized ∧
  w2.base_addr = w1.base_addr ∧
  w2.early_console = w1.early_console ∧
  ∃ l : List Event, w2.trace = w1.trace ++ l ∧ w2.reads = w1.reads + (l.filter Event.isRead).length ∧
    ∀ e ∈ l, P e = true

/-- A hardware whose registers always read `v`, probes that answer `a`
(uartlite) and `b` (uart16550), and a formatter that leaves the three bytes
`h`, `i`, newline and returns 3. -/
def exampleEnv (v a b : Nat) : Env :=
  { in_be32 := fun _ _ => v, early_uartlite_console := a, early_uart16550_console := b,
    vscnprintf := fun _ _ _ => (fun i => [104, 105, 10].getD i 0, 3) }

/-- The memory `A`, NUL, `B`, then zeros. -/
def exampleNulBuffer : Nat → Int := fun i => [65, 0, 66].getD i 0

/-- The memory `a`, newline, `b`, then zeros. -/
def exampleBuffer : Nat → Int := fun i => [97, 10, 98].getD i 0

/-- The memory newline, newline, NUL, then zeros. -/
def exampleNewlineBuffer : Nat → Int := fun i => [10, 10, 0].getD i 0

/-- The uartlite branch of `setup_early_printk` when its probe answers a
non-zero address: the world before the diagnostic `early_printk`. -/
def uartlite_activated (cfg : Config) (env : Env) (w : World) : World :=
  { w with
    early_console_initialized := 1
    base_addr := env.early_uartlite_console % U32
    early_console := some Console.early_serial_uartlite_console
    trace := w.trace ++ Event.early_uartlite_console ::
      (if cfg.MMU then [Event.early_console_reg_tlb_alloc (env.early_uartlite_console % U32)]
       else []) }

/-- The uart16550 branch of `setup_early_printk` when its masked probe value
is non-zero: the world before the diagnostic `early_printk`. -/
def uart16550_activated (cfg : Config) (env : Env) (w : World) : World :=
  { w with
    early_console_initialized := 1
    base_addr := env.early_uart16550_console % U32 &&& 0xFFFFFFFC
    early_console := some Console.early_serial_uart16550_console
    trace := w.trace ++ Event.early_uart16550_console ::
      (if cfg.MMU then
        [Event.early_console_reg_tlb_alloc (env.early_uart16550_console % U32 &&& 0xFFFFFFFC)]
       else []) }

/-- The reads a spin makes when it polls `addr` for `r` times starting from read number `k0`. -/
def pollEvents (env : Env) (addr k0 r : Nat) : List Event :=
  (List.range r).map fun k => Event.in_be32 addr (env.in_be32 (k0 + k) addr % U32)

/-- Number of register reads in a trace. -/
def readCount (t : List Event) : Nat := (t.filter Event.isRead).length

/-- Number of register writes in a trace. -/
def writeCount (t : List Event) : Nat := (t.filter Event.isWrite).length

/-- The worlds reachable from boot by calls of `setup_early_printk`,
`early_printk` and `disable_early_printk`, each with collaborators (probe
results, hardware, formatter) and arguments of its own. -/
inductive Reachable (cfg : Config) : World → Prop
  | boot : Reachable cfg World.boot
  | setup (env : Env) (opt : Option String) {w : World} :
      Reachable cfg w → Reachable cfg (setup_early_printk cfg env opt w).2
  | printk (env : Env) (fmt : String) (args : List Nat) {w : World} :
      Reachable cfg w → Reachable cfg (early_printk env fmt args w)
  | disable {w : World} : Reachable cfg w → Reachable cfg (disable_early_printk w)

/-- The entry event of the `.write` member of a console called with count `n`. -/
def Console.writeEvent : Console → Nat → Event
  | Console.early_serial_uartlite_console, n => Event.uartlite_write n
  | Console.early_serial_uart16550_console, n => Event.uart16550_write n

/-- Modelled from the spec: the contract of the bounded formatter `vscnprintf`,
whose code is outside the file.  Called with a buffer of `size` bytes for a
message whose untruncated output has `full` bytes, it reports a count that is
not negative, not more than `size` and not more than `full` (it writes at most
`size` bytes and reports how many it wrote). -/
def FormatterContract (env : Env) (size : Nat) (fmt : String) (args : List Nat) (full : Nat) :
    Prop :=
  0 ≤ (env.vscnprintf size fmt args).2 ∧
  (env.vscnprintf size fmt args).2 ≤ (size : Int) ∧
  (env.vscnprintf size fmt args).2 ≤ (full : Int)

/-- A ready hardware and a formatter that, whatever the message, fills the
buffer with 511 bytes `x` and reports 511. -/
def exampleTruncEnv : Env :=
  { in_be32 := fun _ _ => 0x60, early_uartlite_console := 0x40600000,
    early_uart16550_console := 0,
    vscnprintf := fun _ _ _ => (fun i => if i < 511 then 120 else 0, 511) }

/-- A world with the uartlite console active at `0x40600000`. -/
def exampleActiveWorld : World :=
  { early_console_initialized := 1, base_addr := 0x40600000,
    early_console := some Console.early_serial_uartlite_console, reads := 0, trace := [] }

/-- A hardware whose registers read 8 (busy for both backends) on the first
two reads of the boot and `0x60` (ready for both) from the third on; no probe
answers. -/
def exampleSlowEnv : Env :=
  { in_be32 := fun k _ => if k < 2 then 8 else 0x60, early_uartlite_console := 0,
    early_uart16550_console := 0,
    vscnprintf := fun _ _ _ => (fun _ => 0, 0) }

/-- A world with the uart16550 console active at `0x84000000`. -/
def exampleActiveWorld16550 : World :=
  { early_console_initialized := 1, base_addr := 0x84000000,
    early_console := some Console.early_serial_uart16550_console, reads := 0, trace := [] }

/-- Number of bytes the loop of `write` consumes from `s[i..]` with count `n`:
it stops at the first zero byte or after `n` bytes. -/
def nulStop (s : Nat → Int) : Nat → Nat → Nat
  | _, 0 => 0
  | i, n + 1 => if s i = 0 then 0 else nulStop s (i + 1) n + 1

/-- A hardware whose registers read 8 (busy for both backends) on every read
of the boot except the 10000th (read number 9999, counted from 0), which reads
`0x60` (ready for both). -/
def exampleLateEnv : Env :=
  { in_be32 := fun k _ => if k = 9999 then 0x60 else 8, early_uartlite_console := 0,
    early_uart16550_console := 0,
    vscnprintf := fun _ _ _ => (fun _ => 0, 0) }

/-! Frame lemmas. -/

theorem Steps.refl (P : Event → Bool) (w : World) : Steps P w w :=
  ⟨rfl, rfl, rfl, [], by simp, by simp, by simp⟩

theorem Steps.trans {P : Event → Bool} {w1 w2 w3 : World}
    (h12 : Steps P w1 w2) (h23 : Steps P w2 w3) : Steps P w1 w3 := by
  obtain ⟨a1, b1, c1, l1, t1, r1, p1⟩ := h12
  obtain ⟨a2, b2, c2, l2, t2, r2, p2⟩ := h23
  refine ⟨a2.trans a1, b2.trans b1, c2.trans c1, l1 ++ l2, ?_, ?_, ?_⟩
  · rw [t2, t1, List.append_assoc]
  · rw [r2, r1, List.filter_append, List.length_append, Nat.add_assoc]
  · intro e he
    rcases List.mem_append.mp he with h | h
    · exact p1 e h
    · exact p2 e h

theorem Steps.mono {P Q : Event → Bool} {w1 w2 : World} (hPQ : ∀ e, P e = true → Q e = true)
    (h : Steps P w1 w2) : Steps Q w1 w2 := by
  obtain ⟨a, b, c, l, t, r, p⟩ := h
  exact ⟨a, b, c, l, t, r, fun e he => hPQ e (p e he)⟩

theorem Steps.log {P : Event → Bool} (w : World) (e : Event) (hr : e.isRead = false)
    (hP : P e = true) : Steps P w (w.log e) :=
  ⟨rfl, rfl, rfl, [e], rfl, by simp [World.log, List.filter, hr], by simpa using hP⟩

theorem in_be32_steps (env : Env) (addr : Nat) (w : World) :
    Steps Event.isRead w (in_be32 env addr w).2 :=
  ⟨rfl, rfl, rfl, [Event.in_be32 addr (env.in_be32 w.reads addr % U32)], rfl,
    by simp [in_be32, List.filter, Event.isRead], by simp [Event.isRead]⟩

theorem uartlite_spin_steps (env : Env) (r : Nat) (w : World) :
    Steps Event.isRead w (uartlite_spin env r w).2 := by
  induction r generalizing w with
  | zero => exact Steps.refl _ _
  | succ r ih =>
    unfold uartlite_spin
    by_cases hr : r = 0
    · simp only [hr, if_true]; exact Steps.refl _ _
    · simp only [hr, if_false]
      split
      · exact (in_be32_steps env _ w).trans (ih _)
      · exact in_be32_steps env _ w

theorem uart16550_spin_steps (env : Env) (r : Nat) (w : World) :
    Steps Event.isRead w (uart16550_spin env r w).2 := by
  induction r generalizing w with
  | zero => exact Steps.refl _ _
  | succ r ih =>
    unfold uart16550_spin
    by_cases hr : r = 0
    · simp only [hr, if_true]; exact Steps.refl _ _
    · simp only [hr, if_false]
      split
      · exact (in_be32_steps env _ w).trans (ih _)
      · exact in_be32_steps env _ w

theorem isRead_isPutc (e : Event) (h : e.isRead = true) : e.isPutc = true := by
  cases e <;> simp_all [Event.isRead, Event.isPutc]

theorem isPutc_isBackend (e : Event) (h : e.isPutc = true) : e.isBackend = true := by
  cases e <;> simp_all [Event.isPutc, Event.isBackend]

theorem isBackend_isPrintk (e : Event) (h : e.isBackend = true) : e.isPrintk = true := by
  cases e <;> simp_all [Event.isPutc, Event.isBackend, Event.isPrintk]

theorem early_printk_uartlite_putc_steps (env : Env) (c : Int) (w : World) :
    Steps Event.isPutc w (early_printk_uartlite_putc env c w) := by
  unfold early_printk_uartlite_putc
  have h0 : Steps Event.isPutc w (w.log (Event.uartlite_putc c)) := Steps.log w _ rfl rfl
  have h1 := (uartlite_spin_steps env 10000 (w.log (Event.uartlite_putc c))).mono isRead_isPutc
  simp only
  split
  · exact (h0.trans h1).trans (Steps.log _ _ rfl rfl)
  · exact h0.trans h1

theorem early_printk_uart16550_putc_steps (env : Env) (c : Int) (w : World) :
    Steps Event.isPutc w (early_printk_uart16550_putc env c w) := by
  unfold early_printk_uart16550_putc
  have h0 : Steps Event.isPutc w (w.log (Event.uart16550_putc c)) := Steps.log w _ rfl rfl
  have h1 := (uart16550_spin_steps env 10000 (w.log (Event.uart16550_putc c))).mono isRead_isPutc
  simp only
  split
  · exact (h0.trans h1).trans (Steps.log _ _ rfl rfl)
  · exact h0.trans h1

theorem putcCalls_append (l1 l2 : List Event) :
    putcCalls (l1 ++ l2) = putcCalls l1 ++ putcCalls l2 := by
  simp [putcCalls, List.filterMap_append]

theorem putcCalls_reads (l : List Event) (h : ∀ e ∈ l, e.isRead = true) : putcCalls l = [] := by
  induction l with
  | nil => rfl
  | cons e t ih =>
    have he := h e (List.mem_cons_self _ _)
    have ht := ih fun x hx => h x (List.mem_cons_of_mem _ hx)
    cases e <;> simp_all [Event.isRead, putcCalls]

theorem putcCalls_steps_reads {w1 w2 : World} (h : Steps Event.isRead w1 w2) :
    putcCalls w2.trace = putcCalls w1.trace := by
  obtain ⟨_, _, _, l, ht, _, hl⟩ := h
  rw [ht, putcCalls_append, putcCalls_reads l hl, List.append_nil]

theorem early_printk_uartlite_putc_calls (env : Env) (c : Int) (w : World) :
    putcCalls (early_printk_uartlite_putc env c w).trace = putcCalls w.trace ++ [c] := by
  have hs := putcCalls_steps_reads (uartlite_spin_steps env 10000 (w.log (Event.uartlite_putc c)))
  have h0 : putcCalls (w.log (Event.uartlite_putc c)).trace = putcCalls w.trace ++ [c] := by
    simp [World.log, putcCalls]
  unfold early_printk_uartlite_putc
  simp only
  split
  · rw [← h0, ← hs]
    simp [out_be32, World.log, putcCalls]
  · rw [← h0, ← hs]

theorem early_printk_uart16550_putc_calls (env : Env) (c : Int) (w : World) :
    putcCalls (early_printk_uart16550_putc env c w).trace = putcCalls w.trace ++ [c] := by
  have hs := putcCalls_steps_reads (uart16550_spin_steps env 10000 (w.log (Event.uart16550_putc c)))
  have h0 : putcCalls (w.log (Event.uart16550_putc c)).trace = putcCalls w.trace ++ [c] := by
    simp [World.log, putcCalls]
  unfold early_printk_uart16550_putc
  simp only
  split
  · rw [← h0, ← hs]
    simp [out_be32, World.log, putcCalls]
  · rw [← h0, ← hs]

/-- Calling `putc` on each element of a list, in order. -/
theorem putcCalls_foldl (putc : Int → World → World)
    (hp : ∀ c w, putcCalls (putc c w).trace = putcCalls w.trace ++ [c]) (l : List Int) (w : World) :
    putcCalls (l.foldl (fun w c => putc c w) w).trace = putcCalls w.trace ++ l := by
  induction l generalizing w with
  | nil => simp
  | cons c t ih => simp [List.foldl, ih, hp]

/-- On a stretch of memory without a zero byte the loop of `write` is `putc`
called on the CRLF expansion of the stretch. -/
theorem write_loop_eq_foldl (putc : Int → World → World) (s : Nat → Int) (n i : Nat) (w : World)
    (h : ∀ k, k < n → s (i + k) ≠ 0) :
    write_loop putc s i n w = (crlf (bytes s i n)).foldl (fun w c => putc c w) w := by
  induction n generalizing i w with
  | zero => simp [write_loop, bytes, crlf]
  | succ n ih =>
    have h0 : s i ≠ 0 := by simpa using h 0 (Nat.succ_pos n)
    have hn : ∀ k, k < n → s (i + 1 + k) ≠ 0 := by
      intro k hk
      have := h (k + 1) (Nat.succ_lt_succ hk)
      rwa [Nat.add_assoc, Nat.add_comm 1 k]
    unfold write_loop
    simp only [h0, if_false, bytes, crlf]
    by_cases h10 : s i = 10
    · simp only [h10, if_true, List.foldl]
      rw [ih (i + 1) _ hn]
    · simp only [h10, if_false, List.foldl]
      rw [ih (i + 1) _ hn]

theorem bytes_eq_map (s : Nat → Int) (i n : Nat) :
    bytes s i n = (List.range n).map fun k => s (i + k) := by
  induction n generalizing i with
  | zero => rfl
  | succ n ih =>
    rw [bytes, ih, List.range_succ_eq_map]
    simp [Nat.add_assoc, Nat.add_comm 1]

theorem write_loop_steps (putc : Int → World → World)
    (hp : ∀ c w, Steps Event.isPutc w (putc c w)) (s : Nat → Int) (i n : Nat) (w : World) :
    Steps Event.isPutc w (write_loop putc s i n w) := by
  induction n generalizing i w with
  | zero => exact Steps.refl _ _
  | succ n ih =>
    unfold write_loop
    split
    · exact Steps.refl _ _
    · simp only
      split
      · exact ((hp _ w).trans (hp _ _)).trans (ih _ _)
      · exact (hp _ w).trans (ih _ _)

theorem early_printk_uartlite_write_steps (env : Env) (s : Nat → Int) (n : Nat) (w : World) :
    Steps Event.isBackend w (early_printk_uartlite_write env s n w) :=
  (Steps.log w (Event.uartlite_write n) rfl rfl).trans
    ((write_loop_steps _ (early_printk_uartlite_putc_steps env) s 0 n _).mono isPutc_isBackend)

theorem early_printk_uart16550_write_steps (env : Env) (s : Nat → Int) (n : Nat) (w : World) :
    Steps Event.isBackend w (early_printk_uart16550_write env s n w) :=
  (Steps.log w (Event.uart16550_write n) rfl rfl).trans
    ((write_loop_steps _ (early_printk_uart16550_putc_steps env) s 0 n _).mono isPutc_isBackend)

theorem Console.write_steps (con : Console) (env : Env) (s : Nat → Int) (n : Nat) (w : World) :
    Steps Event.isBackend w (con.write env s n w) := by
  cases con
  · exact early_printk_uartlite_write_steps env s n w
  · exact early_printk_uart16550_write_steps env s n w

/-- Whatever the state, `early_printk` leaves the statics alone and appends
only formatter and backend events. -/
theorem early_printk_steps (env : Env) (fmt : String) (args : List Nat) (w : World) :
    Steps Event.isPrintk w (early_printk env fmt args w) := by
  unfold early_printk
  split
  · have h0 : Steps Event.isPrintk w (w.log (Event.vscnprintf 512 fmt args)) :=
      Steps.log w _ rfl rfl
    simp only
    split
    · exact h0.trans ((Console.write_steps _ env _ _ _).mono isBackend_isPrintk)
    · exact h0.trans (Steps.log _ _ rfl rfl)
  · exact Steps.refl _ _

/-- Clearing the low two bits of a 32-bit value rounds it down to a multiple
of four. -/
theorem and_mask_clear_low2 (b : Nat) (hb : b < 2 ^ 32) : b &&& 0xFFFFFFFC = 4 * (b / 4) := by
  apply Nat.eq_of_testBit_eq
  intro i
  have hm : (0xFFFFFFFC : Nat) = (2 ^ 30 - 1) <<< 2 := by decide
  have h4 : 4 * (b / 4) = (b >>> 2) <<< 2 := by
    rw [Nat.shiftLeft_eq, Nat.shiftRight_eq_div_pow]; omega
  rw [Nat.testBit_and, hm, h4, Nat.testBit_shiftLeft, Nat.testBit_shiftLeft,
    Nat.testBit_two_pow_sub_one, Nat.testBit_shiftRight]
  by_cases h2 : 2 ≤ i
  · have e : 2 + (i - 2) = i := by omega
    simp only [ge_iff_le, h2, decide_True, Bool.true_and, e]
    by_cases h32 : i - 2 < 30
    · simp [h32]
    · have : b.testBit i = false := by
        apply Nat.testBit_lt_two_pow
        calc b < 2 ^ 32 := hb
          _ ≤ 2 ^ i := Nat.pow_le_pow_right (by decide) (by omega)
      simp [this]
  · simp [h2]

theorem setup_uartlite_success (cfg : Config) (env : Env) (opt : Option String) (w : World)
    (hw : w.early_console_initialized = 0) (hcfg : cfg.SERIAL_UARTLITE_CONSOLE = true)
    (ha : env.early_uartlite_console % U32 ≠ 0) :
    setup_early_printk cfg env opt w =
      (0, early_printk env "early_printk_console is enabled at 0x%08x\n"
        [env.early_uartlite_console % U32] (uartlite_activated cfg env w)) := by
  unfold setup_early_printk uartlite_activated
  cases hM : cfg.MMU <;> simp [hw, hcfg, ha, World.log]

theorem setup_uart16550_success (cfg : Config) (env : Env) (w : World)
    (hcfg : cfg.SERIAL_8250_CONSOLE = true)
    (hb : env.early_uart16550_console % U32 &&& 0xFFFFFFFC ≠ 0) :
    setup_uart16550 cfg env w =
      (0, early_printk env "early_printk_console is enabled at 0x%08x\n"
        [env.early_uart16550_console % U32 &&& 0xFFFFFFFC] (uart16550_activated cfg env w)) := by
  unfold setup_uart16550 uart16550_activated
  cases hM : cfg.MMU <;> simp [hcfg, hb, World.log]

/-- From an uninitialised state the uart16550 part of setup either activates
the uart16550 console at a non-zero address and returns 0, or returns 1 with
the flag still clear. -/
theorem setup_uart16550_outcome (cfg : Config) (env : Env) (w : World)
    (hw : w.early_console_initialized = 0) :
    ((setup_uart16550 cfg env w).1 = 0 ∧
      (setup_uart16550 cfg env w).2.early_console_initialized = 1 ∧
      (setup_uart16550 cfg env w).2.early_console =
        some Console.early_serial_uart16550_console ∧
      (setup_uart16550 cfg env w).2.base_addr ≠ 0) ∨
    ((setup_uart16550 cfg env w).1 = 1 ∧
      (setup_uart16550 cfg env w).2.early_console_initialized = 0) := by
  by_cases hcfg : cfg.SERIAL_8250_CONSOLE = true
  · by_cases hb : env.early_uart16550_console % U32 &&& 0xFFFFFFFC = 0
    · right
      simp [setup_uart16550, hcfg, hb, World.log, hw]
    · left
      rw [setup_uart16550_success cfg env w hcfg hb]
      obtain ⟨h1, h2, h3, _⟩ := early_printk_steps env
        "early_printk_console is enabled at 0x%08x\n"
        [env.early_uart16550_console % U32 &&& 0xFFFFFFFC] (uart16550_activated cfg env w)
      refine ⟨rfl, h1, h3, ?_⟩
      show (early_printk env _ _ _).base_addr ≠ 0
      rw [h2]; exact hb
  · right
    simp [setup_uart16550, hcfg, hw]

theorem setup_uartlite_absent (cfg : Config) (env : Env) (opt : Option String) (w : World)
    (hw : w.early_console_initialized = 0) (hcfg : cfg.SERIAL_UARTLITE_CONSOLE = true)
    (ha : env.early_uartlite_console % U32 = 0) :
    setup_early_printk cfg env opt w =
      setup_uart16550 cfg env { w.log Event.early_uartlite_console with base_addr := 0 } := by
  simp [setup_early_printk, hw, hcfg, ha]

/-- From an uninitialised state `setup_early_printk` either activates a console
at a non-zero address and returns 0, or returns 1 with the flag still clear. -/
theorem setup_early_printk_outcome (cfg : Config) (env : Env) (opt : Option String) (w : World)
    (hw : w.early_console_initialized = 0) :
    ((setup_early_printk cfg env opt w).1 = 0 ∧
      (setup_early_printk cfg env opt w).2.early_console_initialized = 1 ∧
      (setup_early_printk cfg env opt w).2.early_console ≠ none ∧
      (setup_early_printk cfg env opt w).2.base_addr ≠ 0) ∨
    ((setup_early_printk cfg env opt w).1 = 1 ∧
      (setup_early_printk cfg env opt w).2.early_console_initialized = 0) := by
  have key : ∀ w0 : World, w0.early_console_initialized = 0 →
      setup_early_printk cfg env opt w = setup_uart16550 cfg env w0 →
      ((setup_early_printk cfg env opt w).1 = 0 ∧
        (setup_early_printk cfg env opt w).2.early_console_initialized = 1 ∧
        (setup_early_printk cfg env opt w).2.early_console ≠ none ∧
        (setup_early_printk cfg env opt w).2.base_addr ≠ 0) ∨
      ((setup_early_printk cfg env opt w).1 = 1 ∧
        (setup_early_printk cfg env opt w).2.early_console_initialized = 0) := by
    intro w0 hw0 h0
    rw [h0]
    rcases setup_uart16550_outcome cfg env w0 hw0 with ⟨a, b, c, d⟩ | ⟨a, b⟩
    · exact Or.inl ⟨a, b, by rw [c]; simp, d⟩
    · exact Or.inr ⟨a, b⟩
  by_cases hcfg : cfg.SERIAL_UARTLITE_CONSOLE = true
  · by_cases ha : env.early_uartlite_console % U32 = 0
    · exact key _ (by simpa [World.log] using hw) (setup_uartlite_absent cfg env opt w hw hcfg ha)
    · left
      rw [setup_uartlite_success cfg env opt w hw hcfg ha]
      obtain ⟨h1, h2, h3, _⟩ := early_printk_steps env
        "early_printk_console is enabled at 0x%08x\n" [env.early_uartlite_console % U32]
        (uartlite_activated cfg env w)
      refine ⟨rfl, h1, ?_, ?_⟩
      · show (early_printk env _ _ _).early_console ≠ none
        rw [h3]; simp [uartlite_activated]
      · show (early_printk env _ _ _).base_addr ≠ 0
        rw [h2]; exact ha
  · exact key w hw (by simp [setup_early_printk, hw, hcfg])

theorem pollEvents_succ (env : Env) (addr k0 r : Nat) :
    pollEvents env addr k0 (r + 1) =
      Event.in_be32 addr (env.in_be32 k0 addr % U32) :: pollEvents env addr (k0 + 1) r := by
  unfold pollEvents
  rw [List.range_succ_eq_map]
  simp [Nat.add_assoc, Nat.add_comm 1]

theorem uartlite_spin_busy (env : Env) (r : Nat) (w : World)
    (h : ∀ k, env.in_be32 k ((w.base_addr + 8) % U32) % U32 &&& (1 <<< 3) ≠ 0) :
    uartlite_spin env (r + 1) w =
      (0, { w with reads := w.reads + r
                   trace := w.trace ++ pollEvents env ((w.base_addr + 8) % U32) w.reads r }) := by
  induction r generalizing w with
  | zero => simp [uartlite_spin, pollEvents]
  | succ r ih =>
    rw [uartlite_spin]
    have hv := h w.reads
    simp only [Nat.succ_ne_zero, if_false, in_be32, hv, ne_eq, not_false_eq_true, if_true]
    have hi := ih (in_be32 env ((w.base_addr + 8) % U32) w).2 h
    simp only [in_be32] at hi
    rw [hi, pollEvents_succ]
    simp [Nat.add_assoc, Nat.add_comm 1]

theorem uart16550_spin_busy (env : Env) (r : Nat) (w : World)
    (h : ∀ k, ¬ (env.in_be32 k ((w.base_addr + 0x14) % U32) % U32 &&& BOTH_EMPTY = BOTH_EMPTY)) :
    uart16550_spin env (r + 1) w =
      (0, { w with reads := w.reads + r
                   trace := w.trace ++ pollEvents env ((w.base_addr + 0x14) % U32) w.reads r }) := by
  induction r generalizing w with
  | zero => simp [uart16550_spin, pollEvents]
  | succ r ih =>
    rw [uart16550_spin]
    have hv := h w.reads
    simp only [Nat.succ_ne_zero, if_false, in_be32, hv, ne_eq, not_false_eq_true, if_true]
    have hi := ih (in_be32 env ((w.base_addr + 0x14) % U32) w).2 h
    simp only [in_be32] at hi
    rw [hi, pollEvents_succ]
    simp [Nat.add_assoc, Nat.add_comm 1]

theorem early_printk_uartlite_putc_busy (env : Env) (c : Int) (w : World)
    (h : ∀ k, env.in_be32 k ((w.base_addr + 8) % U32) % U32 &&& (1 <<< 3) ≠ 0) :
    early_printk_uartlite_putc env c w =
      { w with reads := w.reads + 9999
               trace := w.trace ++ Event.uartlite_putc c ::
                 pollEvents env ((w.base_addr + 8) % U32) w.reads 9999 } := by
  unfold early_printk_uartlite_putc
  have hs := uartlite_spin_busy env 9999 (w.log (Event.uartlite_putc c)) h
  simp only [hs]
  simp [World.log]

theorem early_printk_uart16550_putc_busy (env : Env) (c : Int) (w : World)
    (h : ∀ k, ¬ (env.in_be32 k ((w.base_addr + 0x14) % U32) % U32 &&& BOTH_EMPTY = BOTH_EMPTY)) :
    early_printk_uart16550_putc env c w =
      { w with reads := w.reads + 9999
               trace := w.trace ++ Event.uart16550_putc c ::
                 pollEvents env ((w.base_addr + 0x14) % U32) w.reads 9999 } := by
  unfold early_printk_uart16550_putc
  have hs := uart16550_spin_busy env 9999 (w.log (Event.uart16550_putc c)) h
  simp only [hs]
  simp [World.log]

theorem readCount_append (l1 l2 : List Event) :
    readCount (l1 ++ l2) = readCount l1 + readCount l2 := by
  simp [readCount, List.filter_append]

theorem writeCount_append (l1 l2 : List Event) :
    writeCount (l1 ++ l2) = writeCount l1 + writeCount l2 := by
  simp [writeCount, List.filter_append]

theorem readCount_cons_other (e : Event) (l : List Event) (h : e.isRead = false) :
    readCount (e :: l) = readCount l := by
  simp [readCount, List.filter, h]

theorem writeCount_cons_other (e : Event) (l : List Event) (h : e.isWrite = false) :
    writeCount (e :: l) = writeCount l := by
  simp [writeCount, List.filter, h]

theorem readCount_pollEvents (env : Env) (addr k0 r : Nat) :
    readCount (pollEvents env addr k0 r) = r := by
  induction r generalizing k0 with
  | zero => rfl
  | succ r ih => rw [pollEvents_succ]; simp [readCount, List.filter, Event.isRead] at ih ⊢; exact ih _

theorem writeCount_pollEvents (env : Env) (addr k0 r : Nat) :
    writeCount (pollEvents env addr k0 r) = 0 := by
  induction r generalizing k0 with
  | zero => rfl
  | succ r ih => rw [pollEvents_succ]; simp [writeCount, List.filter, Event.isWrite] at ih ⊢; exact ih _

theorem early_printk_uartlite_putc_busy_counts (env : Env) (c : Int) (w : World)
    (h : ∀ k, env.in_be32 k ((w.base_addr + 8) % U32) % U32 &&& (1 <<< 3) ≠ 0) :
    readCount (early_printk_uartlite_putc env c w).trace = readCount w.trace + 9999 ∧
    writeCount (early_printk_uartlite_putc env c w).trace = writeCount w.trace ∧
    (early_printk_uartlite_putc env c w).reads = w.reads + 9999 := by
  rw [early_printk_uartlite_putc_busy env c w h]
  refine ⟨?_, ?_, rfl⟩
  · dsimp only
    rw [readCount_append, readCount_cons_other (Event.uartlite_putc c) _ rfl, readCount_pollEvents]
  · dsimp only
    rw [writeCount_append, writeCount_cons_other (Event.uartlite_putc c) _ rfl, writeCount_pollEvents]
    rfl

theorem early_printk_uart16550_putc_busy_counts (env : Env) (c : Int) (w : World)
    (h : ∀ k, ¬ (env.in_be32 k ((w.base_addr + 0x14) % U32) % U32 &&& BOTH_EMPTY = BOTH_EMPTY)) :
    readCount (early_printk_uart16550_putc env c w).trace = readCount w.trace + 9999 ∧
    writeCount (early_printk_uart16550_putc env c w).trace = writeCount w.trace ∧
    (early_printk_uart16550_putc env c w).reads = w.reads + 9999 := by
  rw [early_printk_uart16550_putc_busy env c w h]
  refine ⟨?_, ?_, rfl⟩
  · dsimp only
    rw [readCount_append, readCount_cons_other (Event.uart16550_putc c) _ rfl, readCount_pollEvents]
  · dsimp only
    rw [writeCount_append, writeCount_cons_other (Event.uart16550_putc c) _ rfl, writeCount_pollEvents]
    rfl

/-- In every reachable world a set flag comes with a console and a non-zero
base address. -/
theorem reachable_initialized (cfg : Config) (w : World) (h : Reachable cfg w) :
    w.early_console_initialized ≠ 0 → w.early_console ≠ none ∧ w.base_addr ≠ 0 := by
  induction h with
  | boot => intro h0; exact absurd rfl h0
  | setup env opt hr ih =>
    rename_i w0
    by_cases hw : w0.early_console_initialized = 0
    · rcases setup_early_printk_outcome cfg env opt w0 hw with ⟨_, _, c, d⟩ | ⟨_, b⟩
      · exact fun _ => ⟨c, d⟩
      · exact fun h0 => absurd b h0
    · have : (setup_early_printk cfg env opt w0).2 = w0 := by simp [setup_early_printk, hw]
      rw [this]; exact ih
  | printk env fmt args hr ih =>
    obtain ⟨h1, h2, h3, _⟩ := early_printk_steps env fmt args _
    rw [h1, h2, h3]; exact ih
  | disable hr ih =>
    rename_i w0
    unfold disable_early_printk
    split
    · exact ih
    · intro h0; exact absurd rfl h0

theorem Console.write_eq (con : Console) (env : Env) (s : Nat → Int) (n : Nat) (w : World) :
    ∃ l, (con.write env s n w).trace = w.trace ++ con.writeEvent n :: l ∧
      ∀ e ∈ l, e.isPutc = true := by
  cases con
  · obtain ⟨_, _, _, l, ht, _, hl⟩ := write_loop_steps _ (early_printk_uartlite_putc_steps env)
      s 0 n (w.log (Event.uartlite_write n))
    refine ⟨l, ?_, hl⟩
    show (write_loop _ s 0 n _).trace = _
    rw [ht]; simp [World.log, Console.writeEvent]
  · obtain ⟨_, _, _, l, ht, _, hl⟩ := write_loop_steps _ (early_printk_uart16550_putc_steps env)
      s 0 n (w.log (Event.uart16550_write n))
    refine ⟨l, ?_, hl⟩
    show (write_loop _ s 0 n _).trace = _
    rw [ht]; simp [World.log, Console.writeEvent]

/-- With the flag set and a console present, `early_printk` is one formatter
call followed by the console's `write` on the formatter's buffer and count. -/
theorem early_printk_active (env : Env) (fmt : String) (args : List Nat) (w : World)
    (con : Console) (hi : w.early_console_initialized ≠ 0) (hc : w.early_console = some con) :
    early_printk env fmt args w =
      con.write env (env.vscnprintf 512 fmt args).1
        ((env.vscnprintf 512 fmt args).2 % (U32 : Int)).toNat
        (w.log (Event.vscnprintf 512 fmt args)) := by
  simp [early_printk, hi, hc, World.log]

theorem pollEvents_snoc (env : Env) (addr k0 r : Nat) :
    pollEvents env addr k0 (r + 1) =
      pollEvents env addr k0 r ++ [Event.in_be32 addr (env.in_be32 (k0 + r) addr % U32)] := by
  unfold pollEvents
  rw [List.range_succ, List.map_append]
  rfl

/-- The uartlite spin when the first `j` polls are busy and the next one is
ready, with budget left: `j + 1` reads, counter left at `r - j`. -/
theorem uartlite_spin_ready (env : Env) (j r : Nat) (w : World) (hj : j < r)
    (hbusy : ∀ i, i < j →
      env.in_be32 (w.reads + i) ((w.base_addr + 8) % U32) % U32 &&& (1 <<< 3) ≠ 0)
    (hready : env.in_be32 (w.reads + j) ((w.base_addr + 8) % U32) % U32 &&& (1 <<< 3) = 0) :
    uartlite_spin env (r + 1) w =
      (r - j, { w with reads := w.reads + (j + 1)
                       trace := w.trace ++
                         pollEvents env ((w.base_addr + 8) % U32) w.reads (j + 1) }) := by
  induction j generalizing r w with
  | zero =>
    have hr : r ≠ 0 := by omega
    have hv : ¬ (env.in_be32 w.reads ((w.base_addr + 8) % U32) % U32 &&& (1 <<< 3) ≠ 0) := by
      simpa using hready
    rw [uartlite_spin, pollEvents_succ]
    simp only [hr, if_false, in_be32, hv]
    simp [pollEvents]
  | succ j ih =>
    obtain ⟨r', rfl⟩ : ∃ r', r = r' + 1 := ⟨r - 1, by omega⟩
    have hv : env.in_be32 w.reads ((w.base_addr + 8) % U32) % U32 &&& (1 <<< 3) ≠ 0 := by
      simpa using hbusy 0 (Nat.succ_pos j)
    rw [uartlite_spin]
    simp only [Nat.succ_ne_zero, if_false, in_be32, hv, ne_eq, not_false_eq_true, if_true]
    have hi := ih r' (in_be32 env ((w.base_addr + 8) % U32) w).2 (by omega)
      (by
        intro i hi
        have := hbusy (i + 1) (by omega)
        simpa [in_be32, Nat.add_assoc, Nat.add_comm 1] using this)
      (by simpa [in_be32, Nat.add_assoc, Nat.add_comm 1] using hready)
    simp only [in_be32] at hi
    rw [hi, pollEvents_succ env _ w.reads (j + 1)]
    simp [Nat.add_assoc, Nat.add_comm 1]

/-- The uart16550 spin when the first `j` polls are busy and the next one is
ready, with budget left: `j + 1` reads, counter left at `r - j`. -/
theorem uart16550_spin_ready (env : Env) (j r : Nat) (w : World) (hj : j < r)
    (hbusy : ∀ i, i < j →
      ¬ (env.in_be32 (w.reads + i) ((w.base_addr + 0x14) % U32) % U32 &&& BOTH_EMPTY = BOTH_EMPTY))
    (hready :
      env.in_be32 (w.reads + j) ((w.base_addr + 0x14) % U32) % U32 &&& BOTH_EMPTY = BOTH_EMPTY) :
    uart16550_spin env (r + 1) w =
      (r - j, { w with reads := w.reads + (j + 1)
                       trace := w.trace ++
                         pollEvents env ((w.base_addr + 0x14) % U32) w.reads (j + 1) }) := by
  induction j generalizing r w with
  | zero =>
    have hr : r ≠ 0 := by omega
    have hv : ¬ ¬ (env.in_be32 w.reads ((w.base_addr + 0x14) % U32) % U32 &&& BOTH_EMPTY
        = BOTH_EMPTY) := by
      simpa using hready
    rw [uart16550_spin, pollEvents_succ]
    simp only [hr, if_false, in_be32, hv]
    simp [pollEvents]
  | succ j ih =>
    obtain ⟨r', rfl⟩ : ∃ r', r = r' + 1 := ⟨r - 1, by omega⟩
    have hv : ¬ (env.in_be32 w.reads ((w.base_addr + 0x14) % U32) % U32 &&& BOTH_EMPTY
        = BOTH_EMPTY) := by
      simpa using hbusy 0 (Nat.succ_pos j)
    rw [uart16550_spin]
    simp only [Nat.succ_ne_zero, if_false, in_be32, hv, not_false_eq_true, if_true]
    have hi := ih r' (in_be32 env ((w.base_addr + 0x14) % U32) w).2 (by omega)
      (by
        intro i hi
        have := hbusy (i + 1) (by omega)
        simpa [in_be32, Nat.add_assoc, Nat.add_comm 1] using this)
      (by simpa [in_be32, Nat.add_assoc, Nat.add_comm 1] using hready)
    simp only [in_be32] at hi
    rw [hi, pollEvents_succ env _ w.reads (j + 1)]
    simp [Nat.add_assoc, Nat.add_comm 1]

theorem early_printk_uartlite_putc_ready (env : Env) (c : Int) (w : World) (j : Nat)
    (hj : j < 9999)
    (hbusy : ∀ i, i < j →
      env.in_be32 (w.reads + i) ((w.base_addr + 8) % U32) % U32 &&& (1 <<< 3) ≠ 0)
    (hready : env.in_be32 (w.reads + j) ((w.base_addr + 8) % U32) % U32 &&& (1 <<< 3) = 0) :
    early_printk_uartlite_putc env c w =
      { w with reads := w.reads + (j + 1)
               trace := w.trace ++ Event.uartlite_putc c ::
                 (pollEvents env ((w.base_addr + 8) % U32) w.reads (j + 1) ++
                   [Event.out_be32 ((w.base_addr + 4) % U32) (low8 c)]) } := by
  unfold early_printk_uartlite_putc
  have hs := uartlite_spin_ready env j 9999 (w.log (Event.uartlite_putc c)) hj hbusy hready
  have hne : 9999 - j ≠ 0 := by omega
  simp only [hs, hne, ne_eq, not_false_eq_true, if_true]
  simp [World.log, out_be32]

theorem early_printk_uart16550_putc_ready (env : Env) (c : Int) (w : World) (j : Nat)
    (hj : j < 9999)
    (hbusy : ∀ i, i < j →
      ¬ (env.in_be32 (w.reads + i) ((w.base_addr + 0x14) % U32) % U32 &&& BOTH_EMPTY = BOTH_EMPTY))
    (hready :
      env.in_be32 (w.reads + j) ((w.base_addr + 0x14) % U32) % U32 &&& BOTH_EMPTY = BOTH_EMPTY) :
    early_printk_uart16550_putc env c w =
      { w with reads := w.reads + (j + 1)
               trace := w.trace ++ Event.uart16550_putc c ::
                 (pollEvents env ((w.base_addr + 0x14) % U32) w.reads (j + 1) ++
                   [Event.out_be32 w.base_addr (low8 c)]) } := by
  unfold early_printk_uart16550_putc
  have hs := uart16550_spin_ready env j 9999 (w.log (Event.uart16550_putc c)) hj hbusy hready
  have hne : 9999 - j ≠ 0 := by omega
  simp only [hs, hne, ne_eq, not_false_eq_true, if_true]
  simp [World.log, out_be32]

theorem low8_eq (c : Int) : (low8 c : Int) = c % 256 ∧ low8 c < 256 := by
  unfold low8; omega

theorem and_mask7 (v m : Nat) (hm : 127 &&& m = m) : v &&& m = v % 128 &&& m := by
  have h := Nat.and_pow_two_sub_one_eq_mod v 7
  have h' : v &&& 127 = v % 128 := h
  rw [← h', Nat.and_assoc, hm]

/-- The test of the uart16550 spin holds exactly when both `0x40` and `0x20`
are set in the status value. -/
theorem both_empty_iff (v : Nat) :
    v &&& BOTH_EMPTY = BOTH_EMPTY ↔ (v &&& 0x40 = 0x40 ∧ v &&& 0x20 = 0x20) := by
  have hB : BOTH_EMPTY = 0x60 := by decide
  rw [hB, and_mask7 v 0x60 (by decide), and_mask7 v 0x40 (by decide),
    and_mask7 v 0x20 (by decide)]
  have hlt : v % 128 < 128 := Nat.mod_lt _ (by decide)
  have key : ∀ u, u < 128 → (u &&& 0x60 = 0x60 ↔ (u &&& 0x40 = 0x40 ∧ u &&& 0x20 = 0x20)) := by
    decide
  exact key _ hlt

/-- A successful activation of the uart16550 console stores a base address
that is a multiple of four. -/
theorem setup_uart16550_aligned (cfg : Config) (env : Env) (opt : Option String) (w : World)
    (hw : w.early_console_initialized = 0)
    (h0 : (setup_early_printk cfg env opt w).1 = 0)
    (hc : (setup_early_printk cfg env opt w).2.early_console =
      some Console.early_serial_uart16550_console) :
    (setup_early_printk cfg env opt w).2.base_addr % 4 = 0 := by
  have key : ∀ w0 : World, setup_early_printk cfg env opt w = setup_uart16550 cfg env w0 →
      (setup_early_printk cfg env opt w).2.base_addr % 4 = 0 := by
    intro w0 hw0
    rw [hw0] at h0 ⊢
    by_cases hcfg : cfg.SERIAL_8250_CONSOLE = true
    · by_cases hb : env.early_uart16550_console % U32 &&& 0xFFFFFFFC = 0
      · simp [setup_uart16550, hcfg, hb] at h0
      · rw [setup_uart16550_success cfg env w0 hcfg hb]
        obtain ⟨_, h2, _, _⟩ := early_printk_steps env
          "early_printk_console is enabled at 0x%08x\n"
          [env.early_uart16550_console % U32 &&& 0xFFFFFFFC] (uart16550_activated cfg env w0)
        show (early_printk env _ _ _).base_addr % 4 = 0
        rw [h2]
        show (env.early_uart16550_console % U32 &&& 0xFFFFFFFC) % 4 = 0
        have hlt : env.early_uart16550_console % U32 < 2 ^ 32 :=
          Nat.mod_lt _ (by decide : 0 < U32)
        rw [and_mask_clear_low2 _ hlt]
        exact Nat.mul_mod_right 4 _
    · simp [setup_uart16550, hcfg] at h0
  by_cases hcfg : cfg.SERIAL_UARTLITE_CONSOLE = true
  · by_cases ha : env.early_uartlite_console % U32 = 0
    · exact key _ (setup_uartlite_absent cfg env opt w hw hcfg ha)
    · rw [setup_uartlite_success cfg env opt w hw hcfg ha] at hc
      obtain ⟨_, _, h3, _⟩ := early_printk_steps env
        "early_printk_console is enabled at 0x%08x\n" [env.early_uartlite_console % U32]
        (uartlite_activated cfg env w)
      have hc' : (early_printk env "early_printk_console is enabled at 0x%08x\n"
          [env.early_uartlite_console % U32] (uartlite_activated cfg env w)).early_console =
          some Console.early_serial_uart16550_console := hc
      rw [h3] at hc'
      simp [uartlite_activated] at hc'
  · exact key w (by simp [setup_early_printk, hw, hcfg])

theorem nulStop_le (s : Nat → Int) (i n : Nat) : nulStop s i n ≤ n := by
  induction n generalizing i with
  | zero => simp [nulStop]
  | succ n ih =>
    unfold nulStop
    split
    · omega
    · have := ih (i + 1); omega

theorem nulStop_nonzero (s : Nat → Int) (i n k : Nat) (hk : k < nulStop s i n) :
    s (i + k) ≠ 0 := by
  induction n generalizing i k with
  | zero => simp [nulStop] at hk
  | succ n ih =>
    unfold nulStop at hk
    split at hk
    · omega
    · rename_i h0
      cases k with
      | zero => simpa using h0
      | succ k =>
        have := ih (i + 1) k (by omega)
        rwa [Nat.add_assoc, Nat.add_comm 1 k] at this

theorem nulStop_zero (s : Nat → Int) (i n : Nat) (h : nulStop s i n < n) :
    s (i + nulStop s i n) = 0 := by
  induction n generalizing i with
  | zero => omega
  | succ n ih =>
    unfold nulStop at h ⊢
    split
    · rename_i h0; simpa using h0
    · rename_i h0
      simp only [h0, if_false] at h
      have := ih (i + 1) (by omega)
      rwa [Nat.add_assoc, Nat.add_comm 1] at this

theorem nulStop_lt_of_zero (s : Nat → Int) (i n j : Nat) (hj : j < n) (h0 : s (i + j) = 0) :
    nulStop s i n < n := by
  by_contra hge
  have hm : nulStop s i n = n := Nat.le_antisymm (nulStop_le s i n) (Nat.le_of_not_lt hge)
  exact nulStop_nonzero s i n j (by omega) h0

/-- The loop of `write` is `putc` called on the CRLF expansion of the bytes
before the stop. -/
theorem write_loop_eq_foldl_stop (putc : Int → World → World) (s : Nat → Int) (n i : Nat)
    (w : World) :
    write_loop putc s i n w =
      (crlf (bytes s i (nulStop s i n))).foldl (fun w c => putc c w) w := by
  induction n generalizing i w with
  | zero => simp [write_loop, nulStop, bytes, crlf]
  | succ n ih =>
    unfold write_loop nulStop
    by_cases h0 : s i = 0
    · simp [h0, bytes, crlf]
    · simp only [h0, if_false, bytes, crlf]
      by_cases h10 : s i = 10
      · simp only [h10, if_true, List.foldl]
        rw [ih (i + 1)]
      · simp only [h10, if_false, List.foldl]
        rw [ih (i + 1)]

theorem crlf_length_le (l : List Int) : (crlf l).length ≤ 2 * l.length := by
  induction l with
  | nil => simp [crlf]
  | cons c t ih =>
    unfold crlf
    split <;> simp <;> omega

theorem bytes_length (s : Nat → Int) (i n : Nat) : (bytes s i n).length = n := by
  induction n generalizing i with
  | zero => rfl
  | succ n ih => simp [bytes, ih]

theorem uartlite_spin_timeout (env : Env) (r : Nat) (w : World)
    (h : ∀ i, i < r →
      env.in_be32 (w.reads + i) ((w.base_addr + 8) % U32) % U32 &&& (1 <<< 3) ≠ 0) :
    uartlite_spin env (r + 1) w =
      (0, { w with reads := w.reads + r
                   trace := w.trace ++ pollEvents env ((w.base_addr + 8) % U32) w.reads r }) := by
  induction r generalizing w with
  | zero => simp [uartlite_spin, pollEvents]
  | succ r ih =>
    rw [uartlite_spin]
    have hv : env.in_be32 w.reads ((w.base_addr + 8) % U32) % U32 &&& (1 <<< 3) ≠ 0 := by
      simpa using h 0 (Nat.succ_pos r)
    simp only [Nat.succ_ne_zero, if_false, in_be32, hv, ne_eq, not_false_eq_true, if_true]
    have hi := ih (in_be32 env ((w.base_addr + 8) % U32) w).2
      (by
        intro i hi
        have := h (i + 1) (by omega)
        simpa [in_be32, Nat.add_assoc, Nat.add_comm 1] using this)
    simp only [in_be32] at hi
    rw [hi, pollEvents_succ]
    simp [Nat.add_assoc, Nat.add_comm 1]

theorem uart16550_spin_timeout (env : Env) (r : Nat) (w : World)
    (h : ∀ i, i < r →
      ¬ (env.in_be32 (w.reads + i) ((w.base_addr + 0x14) % U32) % U32 &&& BOTH_EMPTY = BOTH_EMPTY)) :
    uart16550_spin env (r + 1) w =
      (0, { w with reads := w.reads + r
                   trace := w.trace ++ pollEvents env ((w.base_addr + 0x14) % U32) w.reads r }) := by
  induction r generalizing w with
  | zero => simp [uart16550_spin, pollEvents]
  | succ r ih =>
    rw [uart16550_spin]
    have hv : ¬ (env.in_be32 w.reads ((w.base_addr + 0x14) % U32) % U32 &&& BOTH_EMPTY
        = BOTH_EMPTY) := by
      simpa using h 0 (Nat.succ_pos r)
    simp only [Nat.succ_ne_zero, if_false, in_be32, hv, not_false_eq_true, if_true]
    have hi := ih (in_be32 env ((w.base_addr + 0x14) % U32) w).2
      (by
        intro i hi
        have := h (i + 1) (by omega)
        simpa [in_be32, Nat.add_assoc, Nat.add_comm 1] using this)
    simp only [in_be32] at hi
    rw [hi, pollEvents_succ]
    simp [Nat.add_assoc, Nat.add_comm 1]

theorem early_printk_uartlite_putc_timeout (env : Env) (c : Int) (w : World)
    (h : ∀ i, i < 9999 →
      env.in_be32 (w.reads + i) ((w.base_addr + 8) % U32) % U32 &&& (1 <<< 3) ≠ 0) :
    early_printk_uartlite_putc env c w =
      { w with reads := w.reads + 9999
               trace := w.trace ++ Event.uartlite_putc c ::
                 pollEvents env ((w.base_addr + 8) % U32) w.reads 9999 } := by
  unfold early_printk_uartlite_putc
  have hs := uartlite_spin_timeout env 9999 (w.log (Event.uartlite_putc c)) h
  simp only [hs]
  simp [World.log]

theorem early_printk_uart16550_putc_timeout (env : Env) (c : Int) (w : World)
    (h : ∀ i, i < 9999 →
      ¬ (env.in_be32 (w.reads + i) ((w.base_addr + 0x14) % U32) % U32 &&& BOTH_EMPTY = BOTH_EMPTY)) :
    early_printk_uart16550_putc env c w =
      { w with reads := w.reads + 9999
               trace := w.trace ++ Event.uart16550_putc c ::
                 pollEvents env ((w.base_addr + 0x14) % U32) w.reads 9999 } := by
  unfold early_printk_uart16550_putc
  have hs := uart16550_spin_timeout env 9999 (w.log (Event.uart16550_putc c)) h
  simp only [hs]
  simp [World.log]

/-- Counts of a trace extended by a non-register event, `r` polls and one
register write. -/
theorem counts_polls_then_write (t : List Event) (e : Event) (hr : e.isRead = false)
    (hw : e.isWrite = false) (env : Env) (addr k0 r a v : Nat) :
    readCount (t ++ e :: (pollEvents env addr k0 r ++ [Event.out_be32 a v])) = readCount t + r ∧
    writeCount (t ++ e :: (pollEvents env addr k0 r ++ [Event.out_be32 a v])) =
      writeCount t + 1 := by
  constructor
  · rw [readCount_append, readCount_cons_other e _ hr, readCount_append, readCount_pollEvents]
    rfl
  · rw [writeCount_append, writeCount_cons_other e _ hw, writeCount_append,
      writeCount_pollEvents]
    rfl

/-- Counts of a trace extended by a non-register event and `r` polls. -/
theorem counts_polls_only (t : List Event) (e : Event) (hr : e.isRead = false)
    (hw : e.isWrite = false) (env : Env) (addr k0 r : Nat) :
    readCount (t ++ e :: pollEvents env addr k0 r) = readCount t + r ∧
    writeCount (t ++ e :: pollEvents env addr k0 r) = writeCount t := by
  constructor
  · rw [readCount_append, readCount_cons_other e _ hr, readCount_pollEvents]
  · rw [writeCount_append, writeCount_cons_other e _ hw, writeCount_pollEvents]
    rfl

/-- Every uartlite `putc` either finds the device ready at one of its first
9999 polls and writes, or polls 9999 times and gives up. -/
theorem early_printk_uartlite_putc_cases (env : Env) (c : Int) (w : World) :
    (∃ j, j < 9999 ∧
      env.in_be32 (w.reads + j) ((w.base_addr + 8) % U32) % U32 &&& (1 <<< 3) = 0 ∧
      readCount (early_printk_uartlite_putc env c w).trace = readCount w.trace + (j + 1) ∧
      writeCount (early_printk_uartlite_putc env c w).trace = writeCount w.trace + 1) ∨
    ((∀ i, i < 9999 →
        env.in_be32 (w.reads + i) ((w.base_addr + 8) % U32) % U32 &&& (1 <<< 3) ≠ 0) ∧
      readCount (early_printk_uartlite_putc env c w).trace = readCount w.trace + 9999 ∧
      writeCount (early_printk_uartlite_putc env c w).trace = writeCount w.trace) := by
  by_cases h : ∃ j, j < 9999 ∧
      env.in_be32 (w.reads + j) ((w.base_addr + 8) % U32) % U32 &&& (1 <<< 3) = 0
  · left
    have hs := Nat.find_spec h
    have hmin : ∀ i, i < Nat.find h →
        env.in_be32 (w.reads + i) ((w.base_addr + 8) % U32) % U32 &&& (1 <<< 3) ≠ 0 := by
      intro i hi h0
      exact Nat.find_min h hi ⟨by omega, h0⟩
    refine ⟨Nat.find h, hs.1, hs.2, ?_⟩
    rw [early_printk_uartlite_putc_ready env c w (Nat.find h) hs.1 hmin hs.2]
    exact counts_polls_then_write _ (Event.uartlite_putc c) rfl rfl _ _ _ _ _ _
  · right
    have hall : ∀ i, i < 9999 →
        env.in_be32 (w.reads + i) ((w.base_addr + 8) % U32) % U32 &&& (1 <<< 3) ≠ 0 :=
      fun i hi h0 => h ⟨i, hi, h0⟩
    refine ⟨hall, ?_⟩
    rw [early_printk_uartlite_putc_timeout env c w hall]
    exact counts_polls_only _ (Event.uartlite_putc c) rfl rfl _ _ _ _

/-- Every uart16550 `putc` either finds the device ready at one of its first
9999 polls and writes, or polls 9999 times and gives up. -/
theorem early_printk_uart16550_putc_cases (env : Env) (c : Int) (w : World) :
    (∃ j, j < 9999 ∧
      env.in_be32 (w.reads + j) ((w.base_addr + 0x14) % U32) % U32 &&& BOTH_EMPTY = BOTH_EMPTY ∧
      readCount (early_printk_uart16550_putc env c w).trace = readCount w.trace + (j + 1) ∧
      writeCount (early_printk_uart16550_putc env c w).trace = writeCount w.trace + 1) ∨
    ((∀ i, i < 9999 →
        ¬ (env.in_be32 (w.reads + i) ((w.base_addr + 0x14) % U32) % U32 &&& BOTH_EMPTY
          = BOTH_EMPTY)) ∧
      readCount (early_printk_uart16550_putc env c w).trace = readCount w.trace + 9999 ∧
      writeCount (early_printk_uart16550_putc env c w).trace = writeCount w.trace) := by
  by_cases h : ∃ j, j < 9999 ∧
      env.in_be32 (w.reads + j) ((w.base_addr + 0x14) % U32) % U32 &&& BOTH_EMPTY = BOTH_EMPTY
  · left
    have hs := Nat.find_spec h
    have hmin : ∀ i, i < Nat.find h →
        ¬ (env.in_be32 (w.reads + i) ((w.base_addr + 0x14) % U32) % U32 &&& BOTH_EMPTY
          = BOTH_EMPTY) := by
      intro i hi h0
      exact Nat.find_min h hi ⟨by omega, h0⟩
    refine ⟨Nat.find h, hs.1, hs.2, ?_⟩
    rw [early_printk_uart16550_putc_ready env c w (Nat.find h) hs.1 hmin hs.2]
    exact counts_polls_then_write _ (Event.uart16550_putc c) rfl rfl _ _ _ _ _ _
  · right
    have hall : ∀ i, i < 9999 →
        ¬ (env.in_be32 (w.reads + i) ((w.base_addr + 0x14) % U32) % U32 &&& BOTH_EMPTY
          = BOTH_EMPTY) :=
      fun i hi h0 => h ⟨i, hi, h0⟩
    refine ⟨hall, ?_⟩
    rw [early_printk_uart16550_putc_timeout env c w hall]
    exact counts_polls_only _ (Event.uart16550_putc c) rfl rfl _ _ _ _

theorem writeCount_foldl (putc : Int → World → World)
    (hp : ∀ c w, writeCount (putc c w).trace = writeCount w.trace) (l : List Int) (w : World) :
    writeCount (l.foldl (fun w c => putc c w) w).trace = writeCount w.trace := by
  induction l generalizing w with
  | nil => rfl
  | cons c t ih => simp [List.foldl, ih, hp]

/-- The `putc` calls of the uartlite `write`, whatever the hardware does. -/
theorem early_printk_uartlite_write_calls (env : Env) (s : Nat → Int) (n : Nat) (w : World) :
    early_printk_uartlite_write env s n w =
      (crlf (bytes s 0 (nulStop s 0 n))).foldl (fun w c => early_printk_uartlite_putc env c w)
        (w.log (Event.uartlite_write n)) ∧
    putcCalls (early_printk_uartlite_write env s n w).trace =
      putcCalls w.trace ++ crlf (bytes s 0 (nulStop s 0 n)) := by
  have hA := write_loop_eq_foldl_stop (early_printk_uartlite_putc env) s n 0
    (w.log (Event.uartlite_write n))
  refine ⟨hA, ?_⟩
  unfold early_printk_uartlite_write
  rw [hA, putcCalls_foldl _ (early_printk_uartlite_putc_calls env)]
  simp [World.log, putcCalls]

/-- The `putc` calls of the uart16550 `write`, whatever the hardware does. -/
theorem early_printk_uart16550_write_calls (env : Env) (s : Nat → Int) (n : Nat) (w : World) :
    early_printk_uart16550_write env s n w =
      (crlf (bytes s 0 (nulStop s 0 n))).foldl (fun w c => early_printk_uart16550_putc env c w)
        (w.log (Event.uart16550_write n)) ∧
    putcCalls (early_printk_uart16550_write env s n w).trace =
      putcCalls w.trace ++ crlf (bytes s 0 (nulStop s 0 n)) := by
  have hB := write_loop_eq_foldl_stop (early_printk_uart16550_putc env) s n 0
    (w.log (Event.uart16550_write n))
  refine ⟨hB, ?_⟩
  unfold early_printk_uart16550_write
  rw [hB, putcCalls_foldl _ (early_printk_uart16550_putc_calls env)]
  simp [World.log, putcCalls]

theorem crlf_bytes_length_le (s : Nat → Int) (n : Nat) :
    (crlf (bytes s 0 (nulStop s 0 n))).length ≤ 2 * n := by
  have h1 := crlf_length_le (bytes s 0 (nulStop s 0 n))
  rw [bytes_length] at h1
  have h2 := nulStop_le s 0 n
  omega

/-- The CRLF expansion has one byte per byte of the input and one more per
newline. -/
theorem crlf_length (l : List Int) : (crlf l).length = l.length + l.count 10 := by
  induction l with
  | nil => rfl
  | cons c t ih =>
    unfold crlf
    by_cases h : c = 10
    · subst h
      simp [ih]
      omega
    · have h' : ¬ (10 : Int) = c := fun e => h e.symm
      simp [h, ih, List.count_cons, h']
      omega

/-! The claims. -/

/-- C1, as stated, fails: on the three bytes `A`, NUL, `B` with `n = 3` the
uartlite `write` calls `putc` once, for `A`, whereas the claim asks for the
three calls `A`, NUL, `B`. -/
theorem C1_write_nul_counterexample :
    putcCalls (early_printk_uartlite_write (exampleEnv 0x60 0 0) exampleNulBuffer 3
      World.boot).trace = [65] ∧
    crlf ((List.range 3).map exampleNulBuffer) = [65, 0, 66] ∧
    putcCalls (early_printk_uartlite_write (exampleEnv 0x60 0 0) exampleNulBuffer 3
      World.boot).trace ≠ crlf ((List.range 3).map exampleNulBuffer) := by
  decide

/-- C1, amended: for every memory `s` and length `n` such that none of the
first `n` bytes is zero, each backend `write` is its `putc` called on each
byte once, in order, with one extra `putc` of carriage return right after each
newline and after no other byte; hence the logged `putc` calls are exactly
that sequence. -/
theorem C1_write_putc_sequence (env : Env) (s : Nat → Int) (n : Nat) (w : World)
    (h : ∀ i, i < n → s i ≠ 0) :
    (early_printk_uartlite_write env s n w =
        (crlf ((List.range n).map s)).foldl (fun w c => early_printk_uartlite_putc env c w)
          (w.log (Event.uartlite_write n)) ∧
      putcCalls (early_printk_uartlite_write env s n w).trace =
        putcCalls w.trace ++ crlf ((List.range n).map s)) ∧
    (early_printk_uart16550_write env s n w =
        (crlf ((List.range n).map s)).foldl (fun w c => early_printk_uart16550_putc env c w)
          (w.log (Event.uart16550_write n)) ∧
      putcCalls (early_printk_uart16550_write env s n w).trace =
        putcCalls w.trace ++ crlf ((List.range n).map s)) := by
  have hb : bytes s 0 n = (List.range n).map s := by
    rw [bytes_eq_map]; simp
  have h0 : ∀ k, k < n → s (0 + k) ≠ 0 := by
    intro k hk; rw [Nat.zero_add]; exact h k hk
  have hA := write_loop_eq_foldl (early_printk_uartlite_putc env) s n 0
    (w.log (Event.uartlite_write n)) h0
  have hB := write_loop_eq_foldl (early_printk_uart16550_putc env) s n 0
    (w.log (Event.uart16550_write n)) h0
  rw [hb] at hA hB
  refine ⟨⟨hA, ?_⟩, ⟨hB, ?_⟩⟩
  · unfold early_printk_uartlite_write
    rw [hA, putcCalls_foldl _ (early_printk_uartlite_putc_calls env)]
    simp [World.log, putcCalls]
  · unfold early_printk_uart16550_write
    rw [hB, putcCalls_foldl _ (early_printk_uart16550_putc_calls env)]
    simp [World.log, putcCalls]

/-- Witness for C1: the bytes `a`, newline, `b` give the `putc` calls `a`,
newline, carriage return, `b` on both backends. -/
theorem C1_write_putc_sequence_witness :
    (∀ i, i < 3 → exampleBuffer i ≠ 0) ∧
    putcCalls (early_printk_uartlite_write (exampleEnv 0x60 0 0) exampleBuffer 3
      World.boot).trace = [97, 10, 13, 98] ∧
    putcCalls (early_printk_uart16550_write (exampleEnv 0x60 0 0) exampleBuffer 3
      World.boot).trace = [97, 10, 13, 98] :=
  ⟨by decide,
   (C1_write_putc_sequence (exampleEnv 0x60 0 0) exampleBuffer 3 World.boot (by decide)).1.2.trans
     (by decide),
   (C1_write_putc_sequence (exampleEnv 0x60 0 0) exampleBuffer 3 World.boot (by decide)).2.2.trans
     (by decide)⟩

/-- C2: from an uninitialised state, in a build with the uartlite backend,
whenever the uartlite probe returns a non-zero 32-bit value `a` (and whatever
the uart16550 probe would return), `setup_early_printk` returns 0 and leaves
the flag set, `base_addr = a` and the uartlite console active, and the
uart16550 probe is not among the events of the call. -/
theorem C2_uartlite_precedence (cfg : Config) (env : Env) (opt : Option String) (w : World)
    (hcfg : cfg.SERIAL_UARTLITE_CONSOLE = true) (hw : w.early_console_initialized = 0)
    (hlt : env.early_uartlite_console < U32) (ha : env.early_uartlite_console ≠ 0) :
    (setup_early_printk cfg env opt w).1 = 0 ∧
    (setup_early_printk cfg env opt w).2.early_console_initialized = 1 ∧
    (setup_early_printk cfg env opt w).2.base_addr = env.early_uartlite_console ∧
    (setup_early_printk cfg env opt w).2.early_console =
      some Console.early_serial_uartlite_console ∧
    ∃ l, (setup_early_printk cfg env opt w).2.trace = w.trace ++ l ∧
      Event.early_uart16550_console ∉ l := by
  have hmod : env.early_uartlite_console % U32 = env.early_uartlite_console :=
    Nat.mod_eq_of_lt hlt
  have ha' : env.early_uartlite_console % U32 ≠ 0 := by rw [hmod]; exact ha
  rw [setup_uartlite_success cfg env opt w hw hcfg ha']
  obtain ⟨h1, h2, h3, l, ht, _, hl⟩ := early_printk_steps env
    "early_printk_console is enabled at 0x%08x\n" [env.early_uartlite_console % U32]
    (uartlite_activated cfg env w)
  refine ⟨rfl, h1, ?_, h3, ?_⟩
  · rw [h2]; exact hmod
  · refine ⟨(Event.early_uartlite_console ::
        (if cfg.MMU then [Event.early_console_reg_tlb_alloc (env.early_uartlite_console % U32)]
         else [])) ++ l, ?_, ?_⟩
    · show (early_printk env _ _ _).trace = _
      rw [ht]
      show (w.trace ++ _) ++ l = w.trace ++ (_ ++ l)
      rw [List.append_assoc]
    · intro hmem
      rcases List.mem_append.mp hmem with h | h
      · cases hM : cfg.MMU <;> simp [hM] at h
      · have := hl _ h
        simp [Event.isPrintk, Event.isBackend, Event.isPutc] at this

/-- Witness for C2: with the uartlite probe answering `0x40600000` and the
uart16550 probe `0x40400000`, the stored base address is `0x40600000`. -/
theorem C2_uartlite_precedence_witness :
    (setup_early_printk ⟨true, true, true⟩ (exampleEnv 0x60 0x40600000 0x40400000) none
      World.boot).2.base_addr = 0x40600000 :=
  (C2_uartlite_precedence ⟨true, true, true⟩ (exampleEnv 0x60 0x40600000 0x40400000) none
    World.boot rfl rfl (by decide) (by decide)).2.2.1

/-- C3: from an uninitialised state, in a build with the uart16550 backend,
if the uartlite probe returns 0 and the uart16550 probe returns a 32-bit value
`b` whose value with the low two bits cleared is non-zero, then
`setup_early_printk` returns 0 and leaves the flag set, the uart16550 console
active and `base_addr` equal to `b` with its low two bits cleared, that is
`b` rounded down to a multiple of four. -/
theorem C3_uart16550_fallback (cfg : Config) (env : Env) (opt : Option String) (w : World)
    (hcfg : cfg.SERIAL_8250_CONSOLE = true) (hw : w.early_console_initialized = 0)
    (hA : env.early_uartlite_console = 0) (hlt : env.early_uart16550_console < U32)
    (hb : env.early_uart16550_console &&& 0xFFFFFFFC ≠ 0) :
    (setup_early_printk cfg env opt w).1 = 0 ∧
    (setup_early_printk cfg env opt w).2.early_console_initialized = 1 ∧
    (setup_early_printk cfg env opt w).2.early_console =
      some Console.early_serial_uart16550_console ∧
    (setup_early_printk cfg env opt w).2.base_addr =
      env.early_uart16550_console &&& 0xFFFFFFFC ∧
    (setup_early_printk cfg env opt w).2.base_addr = 4 * (env.early_uart16550_console / 4) := by
  have hmod : env.early_uart16550_console % U32 = env.early_uart16550_console :=
    Nat.mod_eq_of_lt hlt
  have hb' : env.early_uart16550_console % U32 &&& 0xFFFFFFFC ≠ 0 := by rw [hmod]; exact hb
  have key : ∀ w0 : World, setup_early_printk cfg env opt w = setup_uart16550 cfg env w0 →
      (setup_early_printk cfg env opt w).1 = 0 ∧
      (setup_early_printk cfg env opt w).2.early_console_initialized = 1 ∧
      (setup_early_printk cfg env opt w).2.early_console =
        some Console.early_serial_uart16550_console ∧
      (setup_early_printk cfg env opt w).2.base_addr =
        env.early_uart16550_console &&& 0xFFFFFFFC ∧
      (setup_early_printk cfg env opt w).2.base_addr =
        4 * (env.early_uart16550_console / 4) := by
    intro w0 h0
    rw [h0, setup_uart16550_success cfg env w0 hcfg hb']
    obtain ⟨h1, h2, h3, _⟩ := early_printk_steps env
      "early_printk_console is enabled at 0x%08x\n"
      [env.early_uart16550_console % U32 &&& 0xFFFFFFFC] (uart16550_activated cfg env w0)
    have hbase : (early_printk env "early_printk_console is enabled at 0x%08x\n"
        [env.early_uart16550_console % U32 &&& 0xFFFFFFFC]
        (uart16550_activated cfg env w0)).base_addr =
        env.early_uart16550_console &&& 0xFFFFFFFC := by
      rw [h2]; show env.early_uart16550_console % U32 &&& 0xFFFFFFFC = _; rw [hmod]
    exact ⟨rfl, h1, h3, hbase, hbase.trans (and_mask_clear_low2 _ hlt)⟩
  cases hU : cfg.SERIAL_UARTLITE_CONSOLE
  · exact key w (by simp [setup_early_printk, hw, hU])
  · exact key _ (by simp only [setup_early_printk, hw, hU, hA]; rfl)

/-- Witness for C3: with the uartlite probe answering 0 and the uart16550
probe `0x84000000`, the stored base address is `0x84000000`. -/
theorem C3_uart16550_fallback_witness :
    (setup_early_printk ⟨true, true, true⟩ (exampleEnv 0x60 0 0x84000000) none
      World.boot).2.base_addr = 0x84000000 :=
  (C3_uart16550_fallback ⟨true, true, true⟩ (exampleEnv 0x60 0 0x84000000) none
    World.boot rfl rfl rfl (by decide) (by decide)).2.2.2.1.trans (by decide)

/-- C4: from an uninitialised state, if both probes return 0 then
`setup_early_printk` returns the failure code 1 (not 0), the flag stays clear,
the console pointer is untouched, the only events of the call are the probe
calls (so no register is read or written), and a following `early_printk`,
with any format and arguments, changes nothing: no formatter call, no backend
`write` or `putc`. -/
theorem C4_probe_failure (cfg : Config) (env env2 : Env) (opt : Option String)
    (fmt : String) (args : List Nat) (w : World)
    (hw : w.early_console_initialized = 0)
    (hA : env.early_uartlite_console = 0) (hB : env.early_uart16550_console = 0) :
    (setup_early_printk cfg env opt w).1 = 1 ∧
    (setup_early_printk cfg env opt w).1 ≠ 0 ∧
    (setup_early_printk cfg env opt w).2.early_console_initialized = 0 ∧
    (setup_early_printk cfg env opt w).2.early_console = w.early_console ∧
    (setup_early_printk cfg env opt w).2.reads = w.reads ∧
    (∃ l, (setup_early_printk cfg env opt w).2.trace = w.trace ++ l ∧
      ∀ e ∈ l, e = Event.early_uartlite_console ∨ e = Event.early_uart16550_console) ∧
    early_printk env2 fmt args (setup_early_printk cfg env opt w).2 =
      (setup_early_printk cfg env opt w).2 := by
  obtain ⟨cU, cB, cM⟩ := cfg
  cases cU <;> cases cB <;>
    simp [setup_early_printk, setup_uart16550, hw, hA, hB, World.log, U32, early_printk]

/-- Witness for C4: both probes answer 0 at boot. -/
theorem C4_probe_failure_witness :
    (setup_early_printk ⟨true, true, true⟩ (exampleEnv 0x60 0 0) none World.boot).1 = 1 ∧
    (setup_early_printk ⟨true, true, true⟩ (exampleEnv 0x60 0 0) none
      World.boot).2.early_console_initialized = 0 ∧
    early_printk (exampleEnv 0x60 0 0) "x" []
      (setup_early_printk ⟨true, true, true⟩ (exampleEnv 0x60 0 0) none World.boot).2 =
      (setup_early_printk ⟨true, true, true⟩ (exampleEnv 0x60 0 0) none World.boot).2 :=
  have h := C4_probe_failure ⟨true, true, true⟩ (exampleEnv 0x60 0 0) (exampleEnv 0x60 0 0) none
    "x" [] World.boot rfl rfl rfl
  ⟨h.1, h.2.2.1, h.2.2.2.2.2.2⟩

/-- C5: when the flag is already set, `setup_early_printk` returns the world
as it was: statics, read counter and trace are unchanged, so no probe is
consulted, no register accessed and no diagnostic emitted; a further call,
with any probe results, again changes nothing.  In particular a setup call
that follows a successful one (return code 0) only hands back the world the
first call left. -/
theorem C5_setup_idempotent (cfg : Config) (env env2 : Env) (opt opt2 : Option String)
    (w : World) (hw : w.early_console_initialized ≠ 0) :
    (setup_early_printk cfg env opt w).2 = w ∧
    (setup_early_printk cfg env2 opt2 (setup_early_printk cfg env opt w).2).2 = w ∧
    ∀ (env0 : Env) (opt0 : Option String) (w0 : World),
      w0.early_console_initialized = 0 → (setup_early_printk cfg env0 opt0 w0).1 = 0 →
      (setup_early_printk cfg env opt (setup_early_printk cfg env0 opt0 w0).2).2 =
        (setup_early_printk cfg env0 opt0 w0).2 := by
  have h : ∀ (e : Env) (o : Option String) (v : World), v.early_console_initialized ≠ 0 →
      (setup_early_printk cfg e o v).2 = v := by
    intro e o v hv; simp [setup_early_printk, hv]
  refine ⟨h env opt w hw, ?_, ?_⟩
  · rw [h env opt w hw, h env2 opt2 w hw]
  · intro env0 opt0 w0 hw0 hcode
    apply h
    rcases setup_early_printk_outcome cfg env0 opt0 w0 hw0 with ⟨_, b, _, _⟩ | ⟨a, _⟩
    · rw [b]; decide
    · rw [a] at hcode; exact absurd hcode (by decide)

/-- Witness for C5: after a first, successful setup at boot, a second setup
with other probe results leaves the world of the first call. -/
theorem C5_setup_idempotent_witness :
    (setup_early_printk ⟨true, true, true⟩ (exampleEnv 0x60 0x40600000 0x40400000) none
      World.boot).2.early_console_initialized ≠ 0 ∧
    (setup_early_printk ⟨true, true, true⟩ (exampleEnv 0x60 0 0x84000000) none
      (setup_early_printk ⟨true, true, true⟩ (exampleEnv 0x60 0x40600000 0x40400000) none
        World.boot).2).2 =
      (setup_early_printk ⟨true, true, true⟩ (exampleEnv 0x60 0x40600000 0x40400000) none
        World.boot).2 :=
  ⟨by decide,
   (C5_setup_idempotent ⟨true, true, true⟩ (exampleEnv 0x60 0 0x84000000)
     (exampleEnv 0x60 0 0x84000000) none none
     (setup_early_printk ⟨true, true, true⟩ (exampleEnv 0x60 0x40600000 0x40400000) none
       World.boot).2 (by decide)).1⟩

/-- C6, as stated, fails: a setup call on an initialised world returns 1, which
is what a failed probe returns, while a successful activation returns 0. -/
theorem C6_already_initialized_counterexample :
    (setup_early_printk ⟨true, true, true⟩ (exampleEnv 0x60 0x40600000 0x40400000) none
      World.boot).1 = 0 ∧
    (setup_early_printk ⟨true, true, true⟩ (exampleEnv 0x60 0x40600000 0x40400000) none
      (setup_early_printk ⟨true, true, true⟩ (exampleEnv 0x60 0x40600000 0x40400000) none
        World.boot).2).1 = 1 ∧
    (setup_early_printk ⟨true, true, true⟩ (exampleEnv 0x60 0 0) none World.boot).1 = 1 := by
  decide

/-- C6, amended: when the flag is already set, `setup_early_printk` returns 1;
and on any uninitialised world the code 1 is returned exactly when the call
leaves the flag clear (probe failure) and the code 0 exactly when it sets the
flag (successful activation).  So the already-initialised code equals the
failure code and differs from the success code. -/
theorem C6_already_initialized_code (cfg : Config) (env : Env) (opt : Option String)
    (w : World) (hw : w.early_console_initialized ≠ 0) :
    (setup_early_printk cfg env opt w).1 = 1 ∧
    ∀ (cfg0 : Config) (env0 : Env) (opt0 : Option String) (w0 : World),
      w0.early_console_initialized = 0 →
      (((setup_early_printk cfg0 env0 opt0 w0).2.early_console_initialized = 0 ↔
          (setup_early_printk cfg0 env0 opt0 w0).1 = 1) ∧
        ((setup_early_printk cfg0 env0 opt0 w0).2.early_console_initialized ≠ 0 ↔
          (setup_early_printk cfg0 env0 opt0 w0).1 = 0)) := by
  refine ⟨by simp [setup_early_printk, hw], ?_⟩
  intro cfg0 env0 opt0 w0 hw0
  rcases setup_early_printk_outcome cfg0 env0 opt0 w0 hw0 with ⟨a, b, _, _⟩ | ⟨a, b⟩
  · rw [a, b]; simp
  · rw [a, b]; simp

/-- Witness for C6: a second setup after a successful one returns 1. -/
theorem C6_already_initialized_code_witness :
    (setup_early_printk ⟨true, true, true⟩ (exampleEnv 0x60 0x40600000 0x40400000) none
      World.boot).2.early_console_initialized ≠ 0 ∧
    (setup_early_printk ⟨true, true, true⟩ (exampleEnv 0x60 0x40600000 0x40400000) none
      (setup_early_printk ⟨true, true, true⟩ (exampleEnv 0x60 0x40600000 0x40400000) none
        World.boot).2).1 = 1 :=
  ⟨by decide,
   (C6_already_initialized_code ⟨true, true, true⟩ (exampleEnv 0x60 0x40600000 0x40400000) none
     (setup_early_printk ⟨true, true, true⟩ (exampleEnv 0x60 0x40600000 0x40400000) none
       World.boot).2 (by decide)).1⟩

/-- C7, as stated, fails: on a uartlite whose status register always reads 8
(bit 3 set), one `putc` makes 9999 status reads, not 10000. -/
theorem C7_busy_poll_counterexample :
    readCount (early_printk_uartlite_putc (exampleEnv 8 0 0) 65 World.boot).trace = 9999 ∧
    readCount (early_printk_uartlite_putc (exampleEnv 8 0 0) 65 World.boot).trace ≠ 10000 := by
  have h := (early_printk_uartlite_putc_busy_counts (exampleEnv 8 0 0) 65 World.boot
    (fun _ => (by decide : 8 % U32 &&& (1 <<< 3) ≠ 0))).1
  have h0 : readCount World.boot.trace = 0 := rfl
  rw [h, h0]
  decide

/-- C7, amended: if every read of the status register of the active backend
reports busy (uartlite: bit 3 set; uart16550: not both `0x40` and `0x20` set),
then `putc` returns having made exactly 9999 status reads and no register
write: the counter starts at 10000 and is decremented before each read, so the
10000th decrement reaches zero and ends the loop without a read. -/
theorem C7_busy_putc_gives_up (env : Env) (c : Int) (w : World) :
    ((∀ k, env.in_be32 k ((w.base_addr + 8) % U32) % U32 &&& (1 <<< 3) ≠ 0) →
      readCount (early_printk_uartlite_putc env c w).trace = readCount w.trace + 9999 ∧
      writeCount (early_printk_uartlite_putc env c w).trace = writeCount w.trace ∧
      (early_printk_uartlite_putc env c w).reads = w.reads + 9999) ∧
    ((∀ k, ¬ (env.in_be32 k ((w.base_addr + 0x14) % U32) % U32 &&& BOTH_EMPTY = BOTH_EMPTY)) →
      readCount (early_printk_uart16550_putc env c w).trace = readCount w.trace + 9999 ∧
      writeCount (early_printk_uart16550_putc env c w).trace = writeCount w.trace ∧
      (early_printk_uart16550_putc env c w).reads = w.reads + 9999) :=
  ⟨early_printk_uartlite_putc_busy_counts env c w,
   early_printk_uart16550_putc_busy_counts env c w⟩

/-- Witness for C7: a status register that always reads 8 is busy for both
backends; each `putc` makes 9999 reads and no write. -/
theorem C7_busy_putc_gives_up_witness :
    (∀ k, (exampleEnv 8 0 0).in_be32 k ((World.boot.base_addr + 8) % U32) % U32 &&& (1 <<< 3)
      ≠ 0) ∧
    (∀ k, ¬ ((exampleEnv 8 0 0).in_be32 k ((World.boot.base_addr + 0x14) % U32) % U32
      &&& BOTH_EMPTY = BOTH_EMPTY)) ∧
    (early_printk_uartlite_putc (exampleEnv 8 0 0) 65 World.boot).reads = 9999 ∧
    writeCount (early_printk_uartlite_putc (exampleEnv 8 0 0) 65 World.boot).trace = 0 ∧
    (early_printk_uart16550_putc (exampleEnv 8 0 0) 65 World.boot).reads = 9999 ∧
    writeCount (early_printk_uart16550_putc (exampleEnv 8 0 0) 65 World.boot).trace = 0 :=
  have hA : ∀ k, (exampleEnv 8 0 0).in_be32 k ((World.boot.base_addr + 8) % U32) % U32
      &&& (1 <<< 3) ≠ 0 := fun _ => (by decide : 8 % U32 &&& (1 <<< 3) ≠ 0)
  have hB : ∀ k, ¬ ((exampleEnv 8 0 0).in_be32 k ((World.boot.base_addr + 0x14) % U32) % U32
      &&& BOTH_EMPTY = BOTH_EMPTY) :=
    fun _ => (by decide : ¬ (8 % U32 &&& BOTH_EMPTY = BOTH_EMPTY))
  have h := C7_busy_putc_gives_up (exampleEnv 8 0 0) 65 World.boot
  ⟨hA, hB, (h.1 hA).2.2, (h.1 hA).2.1, (h.2 hB).2.2, (h.2 hB).2.1⟩

/-- C8, as stated, fails: after a successful setup and a disable, a reachable
world has the console pointer and a non-zero base address still present while
the flag is clear. -/
theorem C8_disable_keeps_console_counterexample :
    Reachable ⟨true, true, true⟩
      (disable_early_printk (setup_early_printk ⟨true, true, true⟩
        (exampleEnv 0x60 0x40600000 0x40400000) none World.boot).2) ∧
    ¬ (((disable_early_printk (setup_early_printk ⟨true, true, true⟩
          (exampleEnv 0x60 0x40600000 0x40400000) none World.boot).2).early_console ≠ none ∧
        (disable_early_printk (setup_early_printk ⟨true, true, true⟩
          (exampleEnv 0x60 0x40600000 0x40400000) none World.boot).2).base_addr ≠ 0) ↔
      (disable_early_printk (setup_early_printk ⟨true, true, true⟩
        (exampleEnv 0x60 0x40600000 0x40400000) none
        World.boot).2).early_console_initialized ≠ 0) :=
  ⟨Reachable.disable (Reachable.setup _ _ Reachable.boot), by decide⟩

/-- C8, amended: in every world reachable from boot by any sequence of
`setup_early_printk`, `early_printk` and `disable_early_printk` calls, with
arbitrary probe results, if the initialized flag is set then the active
console and a non-zero base address are both present. -/
theorem C8_initialized_implies_console (cfg : Config) (w : World) (h : Reachable cfg w)
    (hi : w.early_console_initialized ≠ 0) :
    w.early_console ≠ none ∧ w.base_addr ≠ 0 :=
  reachable_initialized cfg w h hi

/-- Witness for C8: the world after a successful setup at boot. -/
theorem C8_initialized_implies_console_witness :
    (setup_early_printk ⟨true, true, true⟩ (exampleEnv 0x60 0x40600000 0x40400000) none
      World.boot).2.early_console ≠ none ∧
    (setup_early_printk ⟨true, true, true⟩ (exampleEnv 0x60 0x40600000 0x40400000) none
      World.boot).2.base_addr ≠ 0 :=
  C8_initialized_implies_console ⟨true, true, true⟩ _
    (Reachable.setup (exampleEnv 0x60 0x40600000 0x40400000) none Reachable.boot) (by decide)

/-- C9: when the flag is clear, `early_printk` returns the world as it was, for
every format and argument list: the trace gets no formatter call, no backend
`write` or `putc`, no register access, and the statics are unchanged. -/
theorem C9_early_printk_uninitialized (env : Env) (fmt : String) (args : List Nat) (w : World)
    (hw : w.early_console_initialized = 0) :
    early_printk env fmt args w = w := by
  simp [early_printk, hw]

/-- Witness for C9: `early_printk` at boot. -/
theorem C9_early_printk_uninitialized_witness :
    early_printk (exampleEnv 0x60 0 0) "boot %d" [7] World.boot = World.boot :=
  C9_early_printk_uninitialized (exampleEnv 0x60 0 0) "boot %d" [7] World.boot rfl

/-- C10: when the flag is clear, or when `early_console` is null,
`disable_early_printk` returns the world as it was: no `printk`, no
`unregister_console`, statics unchanged. -/
theorem C10_disable_uninitialized (w : World)
    (hw : w.early_console_initialized = 0 ∨ w.early_console = none) :
    disable_early_printk w = w := by
  simp [disable_early_printk, hw]

/-- Witness for C10: `disable_early_printk` at boot. -/
theorem C10_disable_uninitialized_witness :
    disable_early_printk World.boot = World.boot :=
  C10_disable_uninitialized World.boot (Or.inl rfl)

/-- C11: in a reachable world with the flag set, `disable_early_printk` logs
exactly one warning `printk` ("disabling early console"), then exactly one
`unregister_console` of the active console, and clears the flag, leaving the
rest of the world as it was; after that every `early_printk` and a second
`disable_early_printk` change nothing. -/
theorem C11_disable_initialized (cfg : Config) (env : Env) (fmt : String) (args : List Nat)
    (w : World) (hr : Reachable cfg w) (hi : w.early_console_initialized ≠ 0) :
    ∃ con, w.early_console = some con ∧
      disable_early_printk w =
        { w with
          early_console_initialized := 0
          trace := w.trace ++ [Event.printk_warning "disabling early console\n",
            Event.unregister_console con] } ∧
      early_printk env fmt args (disable_early_printk w) = disable_early_printk w ∧
      disable_early_printk (disable_early_printk w) = disable_early_printk w := by
  have hc := (reachable_initialized cfg w hr hi).1
  obtain ⟨con, hcon⟩ := Option.ne_none_iff_exists'.mp hc
  have hd : disable_early_printk w =
      { w with
        early_console_initialized := 0
        trace := w.trace ++ [Event.printk_warning "disabling early console\n",
          Event.unregister_console con] } := by
    simp [disable_early_printk, hi, hcon, World.log]
  refine ⟨con, hcon, hd, ?_, ?_⟩
  · rw [hd]; simp [early_printk]
  · rw [hd]; simp [disable_early_printk]

/-- Witness for C11: disabling after a successful setup at boot clears the
flag, and a second disable changes nothing. -/
theorem C11_disable_initialized_witness :
    (setup_early_printk ⟨true, true, true⟩ (exampleEnv 0x60 0x40600000 0x40400000) none
      World.boot).2.early_console_initialized ≠ 0 ∧
    (disable_early_printk (setup_early_printk ⟨true, true, true⟩
      (exampleEnv 0x60 0x40600000 0x40400000) none World.boot).2).early_console_initialized
      = 0 ∧
    disable_early_printk (disable_early_printk (setup_early_printk ⟨true, true, true⟩
      (exampleEnv 0x60 0x40600000 0x40400000) none World.boot).2) =
      disable_early_printk (setup_early_printk ⟨true, true, true⟩
        (exampleEnv 0x60 0x40600000 0x40400000) none World.boot).2 := by
  obtain ⟨con, _, hd, _, h2⟩ := C11_disable_initialized ⟨true, true, true⟩
    (exampleEnv 0x60 0 0) "x" []
    (setup_early_printk ⟨true, true, true⟩ (exampleEnv 0x60 0x40600000 0x40400000) none
      World.boot).2
    (Reachable.setup (exampleEnv 0x60 0x40600000 0x40400000) none Reachable.boot) (by decide)
  exact ⟨by decide, by rw [hd], h2⟩

/-- C12: with the flag set and a console active, `early_printk` calls the
formatter once, with buffer size 512, and then the console's `write` with the
count the formatter reported (the rest of the trace is `putc` events).  Under
the formatter contract, for a message whose untruncated output has `full`
bytes, the forwarded count is the reported, truncated count; it is at most
512, and when `full` exceeds 512 it is not `full`. -/
theorem C12_forwarded_count (env : Env) (fmt : String) (args : List Nat) (w : World)
    (con : Console) (full : Nat)
    (hi : w.early_console_initialized ≠ 0) (hc : w.early_console = some con)
    (hf : FormatterContract env 512 fmt args full) :
    (∃ l, (early_printk env fmt args w).trace =
        w.trace ++ Event.vscnprintf 512 fmt args ::
          con.writeEvent ((env.vscnprintf 512 fmt args).2 % (U32 : Int)).toNat :: l ∧
        ∀ e ∈ l, e.isPutc = true) ∧
    ((((env.vscnprintf 512 fmt args).2 % (U32 : Int)).toNat : Int) =
      (env.vscnprintf 512 fmt args).2) ∧
    ((env.vscnprintf 512 fmt args).2 % (U32 : Int)).toNat ≤ 512 ∧
    (512 < full → ((env.vscnprintf 512 fmt args).2 % (U32 : Int)).toNat ≠ full) := by
  obtain ⟨h0, h512, _⟩ := hf
  have hU : (U32 : Int) = 4294967296 := by simp [U32]
  have hmod : (env.vscnprintf 512 fmt args).2 % (U32 : Int) = (env.vscnprintf 512 fmt args).2 := by
    rw [hU]; omega
  refine ⟨?_, ?_, ?_, ?_⟩
  · rw [early_printk_active env fmt args w con hi hc]
    obtain ⟨l, ht, hl⟩ := Console.write_eq con env (env.vscnprintf 512 fmt args).1
      ((env.vscnprintf 512 fmt args).2 % (U32 : Int)).toNat (w.log (Event.vscnprintf 512 fmt args))
    refine ⟨l, ?_, hl⟩
    rw [ht]; simp [World.log]
  · rw [hmod]; omega
  · rw [hmod]; omega
  · intro hfull; rw [hmod]; omega

/-- Witness for C12: a formatter that reports 511 for a message of 600 bytes;
the count handed to `write` is at most 512 and is not 600. -/
theorem C12_forwarded_count_witness :
    FormatterContract exampleTruncEnv 512 "%s" [0] 600 ∧
    ((exampleTruncEnv.vscnprintf 512 "%s" [0]).2 % (U32 : Int)).toNat ≤ 512 ∧
    ((exampleTruncEnv.vscnprintf 512 "%s" [0]).2 % (U32 : Int)).toNat ≠ 600 :=
  have hf : FormatterContract exampleTruncEnv 512 "%s" [0] 600 := by
    unfold FormatterContract; decide
  have h := C12_forwarded_count exampleTruncEnv "%s" [0] exampleActiveWorld
    Console.early_serial_uartlite_console 600 (by decide) rfl hf
  ⟨hf, h.2.2.1, h.2.2.2 (by decide)⟩

/-- C13: uartlite `putc`.  If bit 3 of the status value is set at each of
the first `k - 1` polls and clear at the `k`-th, with `1 ≤ k < 10000`, then
`putc c` makes exactly `k` reads, all of the register `base_addr + 8` (in
32-bit arithmetic), followed by exactly one write, to the register
`base_addr + 4`, of `c & 0xff`, which is `c mod 256` and lies in `0..255` also
for negative `c`; nothing else is appended to the trace. -/
theorem C13_uartlite_putc_protocol (env : Env) (c : Int) (w : World) (k : Nat)
    (hk1 : 1 ≤ k) (hk : k < 10000)
    (hbusy : ∀ i, i < k - 1 →
      env.in_be32 (w.reads + i) ((w.base_addr + 8) % U32) % U32 &&& (1 <<< 3) ≠ 0)
    (hready :
      env.in_be32 (w.reads + (k - 1)) ((w.base_addr + 8) % U32) % U32 &&& (1 <<< 3) = 0) :
    early_printk_uartlite_putc env c w =
      { w with reads := w.reads + k
               trace := w.trace ++ Event.uartlite_putc c ::
                 (pollEvents env ((w.base_addr + 8) % U32) w.reads k ++
                   [Event.out_be32 ((w.base_addr + 4) % U32) (low8 c)]) } ∧
    (low8 c : Int) = c % 256 ∧ low8 c < 256 := by
  obtain ⟨j, rfl⟩ : ∃ j, k = j + 1 := ⟨k - 1, by omega⟩
  exact ⟨early_printk_uartlite_putc_ready env c w j (by omega) hbusy hready, low8_eq c⟩

/-- Witness for C13: busy twice, ready at the third poll, byte `-1`: three
reads of `base_addr + 8`, then the write of 255 to `base_addr + 4`. -/
theorem C13_uartlite_putc_protocol_witness :
    (early_printk_uartlite_putc exampleSlowEnv (-1) exampleActiveWorld).trace =
      [Event.uartlite_putc (-1), Event.in_be32 0x40600008 8, Event.in_be32 0x40600008 8,
        Event.in_be32 0x40600008 0x60, Event.out_be32 0x40600004 255] :=
  (congrArg World.trace (C13_uartlite_putc_protocol exampleSlowEnv (-1) exampleActiveWorld 3
    (by decide) (by decide) (by decide) (by decide)).1).trans (by decide)

/-- C14: uart16550 `putc`.  A status value ends the spin exactly when both
`0x40` and `0x20` are set in it.  If at each of the first `k - 1` polls not
both bits are set and at the `k`-th both are, with `1 ≤ k < 10000`, then
`putc c` makes exactly `k` reads, all of the register `base_addr + 0x14` (in
32-bit arithmetic), followed by exactly one write of `c mod 256` to the
register `base_addr`; and the `base_addr` stored by a successful activation of
the uart16550 console has its low two bits clear. -/
theorem C14_uart16550_putc_protocol (env : Env) (c : Int) (w : World) (k : Nat)
    (hk1 : 1 ≤ k) (hk : k < 10000)
    (hbusy : ∀ i, i < k - 1 →
      ¬ (env.in_be32 (w.reads + i) ((w.base_addr + 0x14) % U32) % U32 &&& 0x40 = 0x40 ∧
         env.in_be32 (w.reads + i) ((w.base_addr + 0x14) % U32) % U32 &&& 0x20 = 0x20))
    (hready :
      env.in_be32 (w.reads + (k - 1)) ((w.base_addr + 0x14) % U32) % U32 &&& 0x40 = 0x40 ∧
      env.in_be32 (w.reads + (k - 1)) ((w.base_addr + 0x14) % U32) % U32 &&& 0x20 = 0x20) :
    early_printk_uart16550_putc env c w =
      { w with reads := w.reads + k
               trace := w.trace ++ Event.uart16550_putc c ::
                 (pollEvents env ((w.base_addr + 0x14) % U32) w.reads k ++
                   [Event.out_be32 w.base_addr (low8 c)]) } ∧
    (low8 c : Int) = c % 256 ∧ low8 c < 256 ∧
    ∀ (cfg : Config) (env0 : Env) (opt : Option String) (w0 : World),
      w0.early_console_initialized = 0 →
      (setup_early_printk cfg env0 opt w0).1 = 0 →
      (setup_early_printk cfg env0 opt w0).2.early_console =
        some Console.early_serial_uart16550_console →
      (setup_early_printk cfg env0 opt w0).2.base_addr % 4 = 0 := by
  obtain ⟨j, rfl⟩ : ∃ j, k = j + 1 := ⟨k - 1, by omega⟩
  refine ⟨?_, (low8_eq c).1, (low8_eq c).2, ?_⟩
  · exact early_printk_uart16550_putc_ready env c w j (by omega)
      (fun i hi h => hbusy i hi ((both_empty_iff _).mp h)) ((both_empty_iff _).mpr hready)
  · intro cfg env0 opt w0 hw0 h0 hc
    exact setup_uart16550_aligned cfg env0 opt w0 hw0 h0 hc

/-- Witness for C14: busy twice (status 8), ready at the third poll (status
`0x60`): three reads of `base_addr + 0x14`, then the write to `base_addr`. -/
theorem C14_uart16550_putc_protocol_witness :
    (early_printk_uart16550_putc exampleSlowEnv 65 exampleActiveWorld16550).trace =
      [Event.uart16550_putc 65, Event.in_be32 0x84000014 8, Event.in_be32 0x84000014 8,
        Event.in_be32 0x84000014 0x60, Event.out_be32 0x84000000 65] :=
  (congrArg World.trace (C14_uart16550_putc_protocol exampleSlowEnv 65 exampleActiveWorld16550 3
    (by decide) (by decide) (by decide) (by decide)).1).trans (by decide)

/-- C15: whatever the hardware answers, `putc` of either backend returns after
at most 10000 status reads and at most one register write; `write(s, n)`
returns after at most `2 * n` calls of `putc`; and on a device whose every
status read reports busy, so that every byte times out and nothing is written,
`write` still calls `putc` for every byte up to the stop. -/
theorem C15_bounded_termination (env : Env) (c : Int) (s : Nat → Int) (n : Nat) (w : World) :
    (readCount (early_printk_uartlite_putc env c w).trace ≤ readCount w.trace + 10000 ∧
      writeCount (early_printk_uartlite_putc env c w).trace ≤ writeCount w.trace + 1) ∧
    (readCount (early_printk_uart16550_putc env c w).trace ≤ readCount w.trace + 10000 ∧
      writeCount (early_printk_uart16550_putc env c w).trace ≤ writeCount w.trace + 1) ∧
    (putcCalls (early_printk_uartlite_write env s n w).trace).length ≤
      (putcCalls w.trace).length + 2 * n ∧
    (putcCalls (early_printk_uart16550_write env s n w).trace).length ≤
      (putcCalls w.trace).length + 2 * n ∧
    ((∀ k a, env.in_be32 k a % U32 &&& (1 <<< 3) ≠ 0) →
      writeCount (early_printk_uartlite_write env s n w).trace = writeCount w.trace ∧
      putcCalls (early_printk_uartlite_write env s n w).trace =
        putcCalls w.trace ++ crlf ((List.range (nulStop s 0 n)).map s)) ∧
    ((∀ k a, ¬ (env.in_be32 k a % U32 &&& BOTH_EMPTY = BOTH_EMPTY)) →
      writeCount (early_printk_uart16550_write env s n w).trace = writeCount w.trace ∧
      putcCalls (early_printk_uart16550_write env s n w).trace =
        putcCalls w.trace ++ crlf ((List.range (nulStop s 0 n)).map s)) := by
  have hb : bytes s 0 (nulStop s 0 n) = (List.range (nulStop s 0 n)).map s := by
    rw [bytes_eq_map]; simp
  have hlen := crlf_bytes_length_le s n
  obtain ⟨hA1, hA2⟩ := early_printk_uartlite_write_calls env s n w
  obtain ⟨hB1, hB2⟩ := early_printk_uart16550_write_calls env s n w
  refine ⟨?_, ?_, ?_, ?_, ?_, ?_⟩
  · rcases early_printk_uartlite_putc_cases env c w with ⟨j, hj, _, rc, wc⟩ | ⟨_, rc, wc⟩ <;>
      constructor <;> omega
  · rcases early_printk_uart16550_putc_cases env c w with ⟨j, hj, _, rc, wc⟩ | ⟨_, rc, wc⟩ <;>
      constructor <;> omega
  · rw [hA2, List.length_append]; omega
  · rw [hB2, List.length_append]; omega
  · intro hbusy
    refine ⟨?_, by rw [hA2, hb]⟩
    rw [hA1, writeCount_foldl _ fun c0 w0 =>
      (early_printk_uartlite_putc_busy_counts env c0 w0 fun k => hbusy k _).2.1]
    simp [World.log, writeCount, Event.isWrite]
  · intro hbusy
    refine ⟨?_, by rw [hB2, hb]⟩
    rw [hB1, writeCount_foldl _ fun c0 w0 =>
      (early_printk_uart16550_putc_busy_counts env c0 w0 fun k => hbusy k _).2.1]
    simp [World.log, writeCount, Event.isWrite]

/-- Witness for C15: on a uartlite that is always busy, `write` of `a`,
newline, `b` makes no register write and still calls `putc` four times. -/
theorem C15_bounded_termination_witness :
    writeCount (early_printk_uartlite_write (exampleEnv 8 0 0) exampleBuffer 3
      World.boot).trace = 0 ∧
    putcCalls (early_printk_uartlite_write (exampleEnv 8 0 0) exampleBuffer 3
      World.boot).trace = [97, 10, 13, 98] :=
  have h := (C15_bounded_termination (exampleEnv 8 0 0) 0 exampleBuffer 3 World.boot).2.2.2.2.1
    (fun _ _ => (by decide : 8 % U32 &&& (1 <<< 3) ≠ 0))
  ⟨h.1, h.2.trans (by decide)⟩

/-- C17, as stated, fails in its last clause: the bytes newline, newline, NUL
with `n = 3` have a zero byte before position 3, yet `write` calls `putc` four
times (newline, carriage return, newline, carriage return) and four bytes are
written to the data register, which is not fewer than 3. -/
theorem C17_newline_expansion_counterexample :
    exampleNewlineBuffer 2 = 0 ∧
    putcCalls (early_printk_uartlite_write (exampleEnv 0x60 0 0) exampleNewlineBuffer 3
      World.boot).trace = [10, 13, 10, 13] ∧
    writeCount (early_printk_uartlite_write (exampleEnv 0x60 0 0) exampleNewlineBuffer 3
      World.boot).trace = 4 ∧
    ¬ (writeCount (early_printk_uartlite_write (exampleEnv 0x60 0 0) exampleNewlineBuffer 3
      World.boot).trace < 3) := by
  decide

/-- C17, amended: for every memory `s` and count `n`, the backend `write`
consumes exactly the bytes `s[0..m)`, where `m = nulStop s 0 n` is the minimum
of `n` and the index of the first zero byte (`m ≤ n`, no zero byte before `m`,
and a zero byte at `m` when `m < n`): `write` is `putc` called on the CRLF
expansion of `s[0..m)` and on nothing else.  When `s` has a zero byte before
position `n`, then `m < n`: fewer than `n` bytes of `s` are consumed.  The
number of `putc` calls is `m` plus the number of newlines in `s[0..m)`. -/
theorem C17_write_stops_at_nul (env : Env) (s : Nat → Int) (n : Nat) (w : World) :
    nulStop s 0 n ≤ n ∧
    (∀ j, j < nulStop s 0 n → s j ≠ 0) ∧
    (nulStop s 0 n < n → s (nulStop s 0 n) = 0) ∧
    ((∃ j, j < n ∧ s j = 0) → nulStop s 0 n < n) ∧
    (early_printk_uartlite_write env s n w =
        (crlf ((List.range (nulStop s 0 n)).map s)).foldl
          (fun w c => early_printk_uartlite_putc env c w) (w.log (Event.uartlite_write n)) ∧
      putcCalls (early_printk_uartlite_write env s n w).trace =
        putcCalls w.trace ++ crlf ((List.range (nulStop s 0 n)).map s)) ∧
    (early_printk_uart16550_write env s n w =
        (crlf ((List.range (nulStop s 0 n)).map s)).foldl
          (fun w c => early_printk_uart16550_putc env c w) (w.log (Event.uart16550_write n)) ∧
      putcCalls (early_printk_uart16550_write env s n w).trace =
        putcCalls w.trace ++ crlf ((List.range (nulStop s 0 n)).map s)) ∧
    (putcCalls (early_printk_uartlite_write env s n w).trace).length =
      (putcCalls w.trace).length + nulStop s 0 n +
        ((List.range (nulStop s 0 n)).map s).count 10 ∧
    (putcCalls (early_printk_uart16550_write env s n w).trace).length =
      (putcCalls w.trace).length + nulStop s 0 n +
        ((List.range (nulStop s 0 n)).map s).count 10 := by
  have hb : bytes s 0 (nulStop s 0 n) = (List.range (nulStop s 0 n)).map s := by
    rw [bytes_eq_map]; simp
  have hA := write_loop_eq_foldl_stop (early_printk_uartlite_putc env) s n 0
    (w.log (Event.uartlite_write n))
  have hB := write_loop_eq_foldl_stop (early_printk_uart16550_putc env) s n 0
    (w.log (Event.uart16550_write n))
  rw [hb] at hA hB
  have hcA : putcCalls (early_printk_uartlite_write env s n w).trace =
      putcCalls w.trace ++ crlf ((List.range (nulStop s 0 n)).map s) := by
    unfold early_printk_uartlite_write
    rw [hA, putcCalls_foldl _ (early_printk_uartlite_putc_calls env)]
    simp [World.log, putcCalls]
  have hcB : putcCalls (early_printk_uart16550_write env s n w).trace =
      putcCalls w.trace ++ crlf ((List.range (nulStop s 0 n)).map s) := by
    unfold early_printk_uart16550_write
    rw [hB, putcCalls_foldl _ (early_printk_uart16550_putc_calls env)]
    simp [World.log, putcCalls]
  have hlen : (crlf ((List.range (nulStop s 0 n)).map s)).length =
      nulStop s 0 n + ((List.range (nulStop s 0 n)).map s).count 10 := by
    rw [crlf_length]; simp
  refine ⟨nulStop_le s 0 n, ?_, ?_, ?_, ⟨hA, hcA⟩, ⟨hB, hcB⟩, ?_, ?_⟩
  · intro j hj
    simpa using nulStop_nonzero s 0 n j hj
  · intro h
    simpa using nulStop_zero s 0 n h
  · rintro ⟨j, hj, h0⟩
    exact nulStop_lt_of_zero s 0 n j hj (by simpa using h0)
  · rw [hcA, List.length_append, hlen, Nat.add_assoc]
  · rw [hcB, List.length_append, hlen, Nat.add_assoc]

/-- Witness for C17: on the bytes `A`, NUL, `B` with `n = 3` the stop is at
index 1, fewer than 3 bytes are consumed, and `putc` is called for `A` only. -/
theorem C17_write_stops_at_nul_witness :
    nulStop exampleNulBuffer 0 3 = 1 ∧
    nulStop exampleNulBuffer 0 3 < 3 ∧
    putcCalls (early_printk_uartlite_write (exampleEnv 0x60 0 0) exampleNulBuffer 3
      World.boot).trace = [65] :=
  ⟨by decide,
   (C17_write_stops_at_nul (exampleEnv 0x60 0 0) exampleNulBuffer 3 World.boot).2.2.2.1
     ⟨1, by decide, by decide⟩,
   (C17_write_stops_at_nul (exampleEnv 0x60 0 0) exampleNulBuffer 3 World.boot).2.2.2.2.1.2.trans
     (by decide)⟩

/-- C18: `putc` of either backend makes at most 9999 status reads, and it
writes the byte exactly when one of the first 9999 status reads of the call
reports ready.  When those 9999 reads all report busy, the call makes exactly
9999 reads and no write, whatever a 10000th read would have returned: that
read is never made. -/
theorem C18_retry_boundary (env : Env) (c : Int) (w : World) :
    (readCount (early_printk_uartlite_putc env c w).trace ≤ readCount w.trace + 9999 ∧
      (writeCount (early_printk_uartlite_putc env c w).trace = writeCount w.trace + 1 ↔
        ∃ j, j < 9999 ∧
          env.in_be32 (w.reads + j) ((w.base_addr + 8) % U32) % U32 &&& (1 <<< 3) = 0) ∧
      ((∀ i, i < 9999 →
          env.in_be32 (w.reads + i) ((w.base_addr + 8) % U32) % U32 &&& (1 <<< 3) ≠ 0) →
        readCount (early_printk_uartlite_putc env c w).trace = readCount w.trace + 9999 ∧
        writeCount (early_printk_uartlite_putc env c w).trace = writeCount w.trace)) ∧
    (readCount (early_printk_uart16550_putc env c w).trace ≤ readCount w.trace + 9999 ∧
      (writeCount (early_printk_uart16550_putc env c w).trace = writeCount w.trace + 1 ↔
        ∃ j, j < 9999 ∧
          env.in_be32 (w.reads + j) ((w.base_addr + 0x14) % U32) % U32 &&& BOTH_EMPTY
            = BOTH_EMPTY) ∧
      ((∀ i, i < 9999 →
          ¬ (env.in_be32 (w.reads + i) ((w.base_addr + 0x14) % U32) % U32 &&& BOTH_EMPTY
            = BOTH_EMPTY)) →
        readCount (early_printk_uart16550_putc env c w).trace = readCount w.trace + 9999 ∧
        writeCount (early_printk_uart16550_putc env c w).trace = writeCount w.trace)) := by
  constructor
  · rcases early_printk_uartlite_putc_cases env c w with ⟨j, hj, hr, rc, wc⟩ | ⟨hall, rc, wc⟩
    · refine ⟨by omega, ⟨fun _ => ⟨j, hj, hr⟩, fun _ => wc⟩, fun h => absurd hr (h j hj)⟩
    · refine ⟨by omega, ⟨fun h => ?_, fun h => ?_⟩, fun _ => ⟨rc, wc⟩⟩
      · omega
      · obtain ⟨j, hj, hr⟩ := h
        exact absurd hr (hall j hj)
  · rcases early_printk_uart16550_putc_cases env c w with ⟨j, hj, hr, rc, wc⟩ | ⟨hall, rc, wc⟩
    · refine ⟨by omega, ⟨fun _ => ⟨j, hj, hr⟩, fun _ => wc⟩, fun h => absurd hr (h j hj)⟩
    · refine ⟨by omega, ⟨fun h => ?_, fun h => ?_⟩, fun _ => ⟨rc, wc⟩⟩
      · omega
      · obtain ⟨j, hj, hr⟩ := h
        exact absurd hr (hall j hj)

/-- Witness for C18: a uartlite that is busy on reads 1 to 9999 and would be
ready on the 10000th: `putc` makes 9999 reads and no write. -/
theorem C18_retry_boundary_witness :
    exampleLateEnv.in_be32 9999 ((World.boot.base_addr + 8) % U32) % U32 &&& (1 <<< 3) = 0 ∧
    readCount (early_printk_uartlite_putc exampleLateEnv 65 World.boot).trace = 9999 ∧
    writeCount (early_printk_uartlite_putc exampleLateEnv 65 World.boot).trace = 0 := by
  have hbusy : ∀ i, i < 9999 →
      exampleLateEnv.in_be32 (World.boot.reads + i) ((World.boot.base_addr + 8) % U32) % U32
        &&& (1 <<< 3) ≠ 0 := by
    intro i hi
    have hne : World.boot.reads + i ≠ 9999 := by
      show 0 + i ≠ 9999
      omega
    show (if World.boot.reads + i = 9999 then 0x60 else 8) % U32 &&& (1 <<< 3) ≠ 0
    rw [if_neg hne]
    decide
  have h := (C18_retry_boundary exampleLateEnv 65 World.boot).1.2.2 hbusy
  exact ⟨by decide, h.1, h.2⟩

/-- C19: from an uninitialised state, in a build with the uart16550 backend,
if the uartlite probe returns 0 and the uart16550 probe returns 1, 2 or 3,
then `setup_early_printk` returns the failure code 1, leaves the flag clear,
and the stored `base_addr` is 0. -/
theorem C19_masked_probe_rejected (cfg : Config) (env : Env) (opt : Option String) (w : World)
    (hcfg : cfg.SERIAL_8250_CONSOLE = true) (hw : w.early_console_initialized = 0)
    (hA : env.early_uartlite_console = 0)
    (hb : env.early_uart16550_console = 1 ∨ env.early_uart16550_console = 2 ∨
      env.early_uart16550_console = 3) :
    (setup_early_printk cfg env opt w).1 = 1 ∧
    (setup_early_printk cfg env opt w).2.early_console_initialized = 0 ∧
    (setup_early_printk cfg env opt w).2.base_addr = 0 := by
  obtain ⟨cU, cB, cM⟩ := cfg
  have hcB : cB = true := hcfg
  subst hcB
  have m1 : 1 &&& 4294967292 = 0 := by decide
  have m2 : 2 &&& 4294967292 = 0 := by decide
  have m3 : 3 &&& 4294967292 = 0 := by decide
  rcases hb with h | h | h <;> cases cU <;>
    simp [setup_early_printk, setup_uart16550, hw, hA, h, World.log, U32, m1, m2, m3]

/-- Witness for C19: the uart16550 probe answers 3. -/
theorem C19_masked_probe_rejected_witness :
    (setup_early_printk ⟨true, true, true⟩ (exampleEnv 0x60 0 3) none World.boot).1 = 1 ∧
    (setup_early_printk ⟨true, true, true⟩ (exampleEnv 0x60 0 3) none
      World.boot).2.early_console_initialized = 0 ∧
    (setup_early_printk ⟨true, true, true⟩ (exampleEnv 0x60 0 3) none World.boot).2.base_addr
      = 0 :=
  C19_masked_probe_rejected ⟨true, true, true⟩ (exampleEnv 0x60 0 3) none World.boot rfl rfl rfl
    (Or.inr (Or.inr rfl))

end EarlyPrintk
